import Mathlib

/-!
Verification development for the pyx-irc gateway (Go sources under irc/ and pyx/).

The Go code is shallowly embedded: Go strings become `List Char`, Go `int`
becomes `Int` (no overflow is relevant to any statement proved here), fallible
or panicking code returns `Option`, and backend HTTP calls are supplied as
oracle parameters.  Each definition is a direct transcription of the Go
function of the same name; comments record the source location.
-/

set_option maxHeartbeats 1000000

namespace PyxIrc

/-- Go strings, embedded as lists of characters. -/
abbrev Str := List Char

/-! ## Go standard-library string primitives -/

/-- Character class of Go `unicode.IsSpace` (used by `strings.TrimSpace`):
TAB, LF, VT, FF, CR, space, NEL, NBSP and the Unicode `White_Space` code
points above Latin-1. -/
def goIsSpace (c : Char) : Bool :=
  c = ' ' || c = '\t' || c = '\n' || c.toNat = 11 || c.toNat = 12 || c = '\r' ||
  c.toNat = 0x85 || c.toNat = 0xA0 || c.toNat = 0x1680 ||
  (0x2000 ≤ c.toNat && c.toNat ≤ 0x200A) || c.toNat = 0x2028 || c.toNat = 0x2029 ||
  c.toNat = 0x202F || c.toNat = 0x205F || c.toNat = 0x3000

/-- Character class of the RE2 Perl class `\s` used by `whitespaceRegex`
(parser.go): `[\t\n\f\r ]`. -/
def goRegexSpace (c : Char) : Bool :=
  c = '\t' || c = '\n' || c.toNat = 12 || c = '\r' || c = ' '

/-- Go `strings.TrimSpace`: drop `unicode.IsSpace` characters from both ends. -/
def goTrimSpace (s : Str) : Str :=
  ((s.dropWhile goIsSpace).reverse.dropWhile goIsSpace).reverse

/-- Go `strings.ToUpper` (the inputs that matter here are ASCII command words). -/
def goToUpper (s : Str) : Str := s.map Char.toUpper

/-- Go `strings.ToLower` (ASCII fragment, used for user names). -/
def goToLower (s : Str) : Str := s.map Char.toLower

/-- Go `whitespaceRegex.Split(s, -1)` where `whitespaceRegex = \s+`
(parser.go): the substrings of `s` between maximal nonempty runs of
`goRegexSpace` characters.  `Split` of the empty string is `[""]`, a leading
or trailing run contributes an empty piece, and interior runs of any length
contribute exactly one boundary. -/
def goSplitWs : Str → List Str
  | [] => [[]]
  | c :: cs =>
    let r := goSplitWs cs
    if goRegexSpace c then
      match cs with
      | c2 :: _ => if goRegexSpace c2 then r else [] :: r
      | [] => [] :: r
    else (c :: r.headD []) :: r.drop 1

/-- Go `strings.SplitN(s, sep, 2)`: the part before the first occurrence of
`sep`, and (when `sep` occurs) the part after it. -/
def goSplitFirst : Str → Char → Str × Option Str
  | [], _ => ([], none)
  | c :: cs, sep =>
    if c = sep then ([], some cs)
    else
      let r := goSplitFirst cs sep
      (c :: r.1, r.2)

/-- Decimal digit characters. -/
def digitChar : Nat → Char
  | 0 => '0'
  | 1 => '1'
  | 2 => '2'
  | 3 => '3'
  | 4 => '4'
  | 5 => '5'
  | 6 => '6'
  | 7 => '7'
  | 8 => '8'
  | _ => '9'

/-- Worker for `natToDigits`, structurally recursive on an explicit bound
(the fuel never runs out when it starts at the number itself). -/
def natToDigitsFuel : Nat → Nat → Str
  | 0, n => [digitChar n]
  | fuel + 1, n =>
    if n < 10 then [digitChar n]
    else natToDigitsFuel fuel (n / 10) ++ [digitChar (n % 10)]

/-- Decimal rendering of a natural number, most significant digit first
(the digit loop of Go `strconv.Itoa`). -/
def natToDigits (n : Nat) : Str := natToDigitsFuel n n

/-- Go `strconv.Itoa`. -/
def Itoa (n : Int) : Str :=
  if n < 0 then '-' :: natToDigits (-n).toNat else natToDigits n.toNat

/-- Value of a decimal digit character, if it is one. -/
def digitVal (c : Char) : Option Nat :=
  if '0' ≤ c ∧ c ≤ '9' then some (c.toNat - 48) else none

/-- Accumulating decimal parse; fails on any non-digit. -/
def parseDigitsAux : Nat → Str → Option Nat
  | acc, [] => some acc
  | acc, c :: cs =>
    match digitVal c with
    | some d => parseDigitsAux (acc * 10 + d) cs
    | none => none

/-- Decimal parse of a nonempty all-digit string. -/
def parseDigits (s : Str) : Option Nat :=
  match s with
  | [] => none
  | c :: cs => parseDigitsAux 0 (c :: cs)

/-- Go `strconv.Atoi`: optional sign then decimal digits; `none` models the
error return.  (The 64-bit range check of the Go original is not modelled;
no statement below depends on it.) -/
def Atoi (s : Str) : Option Int :=
  match s with
  | [] => none
  | c :: rest =>
    if c = '-' then (parseDigits rest).map (fun n => -(n : Int))
    else if c = '+' then (parseDigits rest).map (fun n => (n : Int))
    else (parseDigits (c :: rest)).map (fun n => (n : Int))

/-- Go map assignment `m[k] = v`, observed only through `List.lookup`:
the fresh binding shadows (and here replaces) any previous binding of `k`. -/
def mapSet (m : List (Str × Str)) (k v : Str) : List (Str × Str) :=
  (k, v) :: m.filter (fun p => !(p.1 == k))

/-! ## Wire message parser (parser.go) -/

/-- Parse result of one raw line (struct `Message`, parser.go). -/
structure Message where
  cmd : Str
  args : List Str
  orig : Str
deriving DecidableEq

/-- `NewMessage` (parser.go): trim the line; without a `':'` the command is
the first whitespace-split piece and the arguments are the remaining pieces;
with a `':'` the text before the first `':'` is trimmed and whitespace-split
the same way and everything after the first `':'` is appended verbatim as one
final argument; the command is upper-cased.  (`bigparts[1]` is guarded by the
`Contains` test in the source, hence the `getD` default is dead code.) -/
def NewMessage (input : Str) : Message :=
  let t := goTrimSpace input
  if t.contains ':' then
    let big := goSplitFirst t ':'
    let parts := goSplitWs (goTrimSpace big.1)
    { cmd := goToUpper (parts.headD []), args := parts.drop 1 ++ [big.2.getD []],
      orig := input }
  else
    let parts := goSplitWs t
    { cmd := goToUpper (parts.headD []), args := parts.drop 1, orig := input }

-- The eight rows of `tests` in parser_test.go.
example : NewMessage "".toList = { cmd := [], args := [], orig := [] } := by decide
example : (NewMessage "nick test".toList).cmd = "NICK".toList ∧
    (NewMessage "nick test".toList).args = ["test".toList] := by decide
example : (NewMessage "nick    test".toList).cmd = "NICK".toList ∧
    (NewMessage "nick    test".toList).args = ["test".toList] := by decide
example : (NewMessage "   nick    test   ".toList).cmd = "NICK".toList ∧
    (NewMessage "   nick    test   ".toList).args = ["test".toList] := by decide
example : (NewMessage "user test 0 0 :test user".toList).cmd = "USER".toList ∧
    (NewMessage "user test 0 0 :test user".toList).args =
      ["test".toList, "0".toList, "0".toList, "test user".toList] := by decide
example : (NewMessage "privmsg #test :testing 1 2 3".toList).cmd = "PRIVMSG".toList ∧
    (NewMessage "privmsg #test :testing 1 2 3".toList).args =
      ["#test".toList, "testing 1 2 3".toList] := by decide
example : (NewMessage "privmsg   #test    :testing 1 2 3   ".toList).args =
      ["#test".toList, "testing 1 2 3".toList] := by decide
example : (NewMessage "privmsg   #test    :".toList).args =
      ["#test".toList, []] := by decide

/-! ## PYX backend data model (package pyx)

The file of the pyx package declaring the wire constants and the
`AjaxResponse`/`LongPollResponse` structs is not among the sources; the
structured error codes are therefore embedded as an inductive type (only
their identities matter to the gateway code, never their wire spellings),
and the response struct carries exactly the fields the gateway reads. -/

/-- `pyx.ErrorCode_*`: the structured backend error codes the gateway
distinguishes, plus a catch-all for every other code. -/
inductive ErrorCode where
  | NOT_IN_THAT_GAME
  | INVALID_GAME
  | CANNOT_JOIN_ANOTHER_GAME
  | GAME_FULL
  | WRONG_PASSWORD
  | NO_SUCH_USER
  | OTHER (code : Str)
deriving DecidableEq

/-- `pyx.GameState_*`. -/
inductive GameState where
  | LOBBY
  | PLAYING
  | JUDGING
deriving DecidableEq

/-- `pyx.GameStateMsgs` (display strings; their exact wording is declared in
the absent pyx constants file and is inert in every statement below). -/
def GameStateMsgs : GameState → Str
  | .LOBBY => "waiting for players".toList
  | .PLAYING => "in progress".toList
  | .JUDGING => "judging".toList

/-- `pyx.GamePlayerStatus_*` (the gateway reads JUDGE, JUDGING and WINNER). -/
inductive GamePlayerStatus where
  | JUDGE
  | JUDGING
  | WINNER
  | IDLE
  | OTHER (status : Str)
deriving DecidableEq

/-- `pyx.Sigil_ADMIN` (wire spelling from the absent constants file; only
first-character comparisons against it occur). -/
def Sigil_ADMIN : Str := "@".toList

/-- `pyx.Sigil_ID_CODE`. -/
def Sigil_ID_CODE : Str := "+".toList

/-- `pyx.WhiteCardData` (fields the gateway reads). -/
structure WhiteCardData where
  Id : Int
  Text : Str
  Watermark : Str
deriving DecidableEq

/-- `pyx.BlackCardData` (fields the gateway reads). -/
structure BlackCardData where
  Pick : Int
  Text : Str
  Watermark : Str
deriving DecidableEq

/-- `pyx.GameOptions` (fields the gateway reads). -/
structure GameOptions where
  PlayerLimit : Int
  SpectatorLimit : Int
  ScoreLimit : Int
deriving DecidableEq

/-- `pyx.GameInfo` (fields the gateway reads). -/
structure GameInfo where
  Id : Int
  Host : Str
  Players : List Str
  Spectators : List Str
  State : GameState
  HasPassword : Bool
  GameOptions : GameOptions
  Created : Int
deriving DecidableEq

/-- `pyx.GamePlayerInfo`. -/
structure GamePlayerInfo where
  Name : Str
  Status : GamePlayerStatus
  Score : Int
deriving DecidableEq

/-- `pyx.AjaxResponse`: the kitchen-sink response struct; exactly the fields
the gateway reads are carried. -/
structure AjaxResponse where
  ErrorCode : ErrorCode
  GameInfo : PyxIrc.GameInfo
  PlayerInfo : List GamePlayerInfo
  Names : List Str
  Games : List PyxIrc.GameInfo
  Nickname : Str
  Sigil : Str
  IdCode : Str
  ClientName : Str
  IpAddress : Str
  GameId : Option Int
  Idle : Int
  ConnectedAt : Int
deriving DecidableEq

/-- Outcome of one backend request/response call: the decoded response and,
for a transport failure or a response with the error flag set, the rendered
Go error (its `Error()` message, as produced by `checkForError`). -/
structure BackendCallResult where
  resp : AjaxResponse
  err : Option Str
deriving DecidableEq

/-- Session facts obtained from a successful `pyx.NewClient` login
(`pyx.Client.User` and the server configuration fields). -/
structure PyxSession where
  userName : Str
  userSigil : Str
  userIdCode : Str
  serverStarted : Int
  globalChatEnabled : Bool
  broadcastingUsers : Bool
deriving DecidableEq

/-- Backend oracle: the response each gateway-client call would receive.
Each component models one method of `pyx.Client` (pyx/client.go). -/
structure Backend where
  login : Str → Str → Except Str PyxSession
  names : Except Str (List Str)
  gameList : Except Str (List GameInfo)
  gameInfo : Int → BackendCallResult
  whois : Str → BackendCallResult
  sendGlobalChat : Str → Bool → Option Str
  sendGameChat : Int → Str → Bool → Option Str
  spectateGame : Int → Str → BackendCallResult
  leaveGame : Int → BackendCallResult

/-- `pyx.LongPollResponse`: one long-poll event (fields the handlers read). -/
structure Event where
  Event : Str
  From : Str
  Message : Str
  Wall : Bool
  Emote : Bool
  GameId : Option Int
  Nickname : Str
  Sigil : Str
  IdCode : Str
  GameState : GameState
  BlackCard : BlackCardData
  WhiteCards : List (List WhiteCardData)
  WinningCard : Int
  RoundWinner : Str
deriving DecidableEq

/-! ## IRC gateway configuration and session state (irc/config.go, irc/client.go) -/

/-- `irc.Config` (fields the session bridge reads).  `gameChannelPfx` and
`spectateGameChannelPfx` are Go `GameChannelPrefix` and
`SpectateGameChannelPrefix`. -/
structure Config where
  advertisedName : Str
  botNick : Str
  botUsername : Str
  botHostname : Str
  globalChannel : Str
  gameChannelPfx : Str
  spectateGameChannelPfx : Str
  pyxBaseAddress : Str
deriving DecidableEq

/-- `irc.Client`: the per-connection session state.  The `pyx.Client` pointer
is flattened into the `user*`/`serverStarted`/`globalChatEnabled`/
`broadcastingUsers` fields (set at login and read only once registered), and
`closed` records that `disconnect` ran. -/
structure ClientState where
  addr : Str
  registered : Bool
  password : Str
  nick : Str
  hasUser : Bool
  userName : Str
  userSigil : Str
  userIdCode : Str
  serverStarted : Int
  globalChatEnabled : Bool
  broadcastingUsers : Bool
  gameId : Option Int
  gameIsSpectate : Bool
  gameHost : Str
  gameInProgress : Bool
  gamePlayedCards : Option (List (List WhiteCardData))
  closed : Bool
deriving DecidableEq

/-- One outbound wire line (an element sent on the `client.data` channel or
written directly to the socket writer). -/
abbrev OutLine := Str

/-- `pyx.User.IsAdmin` (method body in the absent pyx file; an admin is
marked by the admin sigil). -/
def userIsAdmin (st : ClientState) : Bool := st.userSigil == Sigil_ADMIN

/-! ## Numerics and reply formatting (irc/numerics.go) -/

def RplWelcome : Str := "001".toList
def RplYourHost : Str := "002".toList
def RplMyInfo : Str := "004".toList
def RplISupport : Str := "005".toList
def RplUModeIs : Str := "221".toList
def RplLUserClient : Str := "251".toList
def RplLUserOp : Str := "252".toList
def RplLUserChannels : Str := "254".toList
def RplLUserMe : Str := "255".toList
def RplLocalUsers : Str := "265".toList
def RplGlobalUsers : Str := "266".toList
def RplWhoisUser : Str := "311".toList
def RplWhoisServer : Str := "312".toList
def RplWhoisOperator : Str := "313".toList
def RplEndOfWho : Str := "315".toList
def RplWhoisIdle : Str := "317".toList
def RplEndOfWhois : Str := "318".toList
def RplWhoisChannels : Str := "319".toList
def RplWhoisSpecial : Str := "320".toList
def RplListStart : Str := "321".toList
def RplList : Str := "322".toList
def RplListEnd : Str := "323".toList
def RplChannelModeIs : Str := "324".toList
def RplCreationTime : Str := "329".toList
def RplTopic : Str := "332".toList
def RplTopicWhoTime : Str := "333".toList
def RplWho : Str := "352".toList
def RplNames : Str := "353".toList
def RplEndNames : Str := "366".toList
def RplEndOfBanList : Str := "368".toList
def RplEndOfWhowas : Str := "369".toList
def RplWhoisHost : Str := "378".toList
def ErrNoSuchNick : Str := "401".toList
def ErrNoSuchChannel : Str := "403".toList
def ErrCannotSendToChan : Str := "404".toList
def ErrTooManyChannels : Str := "405".toList
def ErrWasNoSuchNick : Str := "406".toList
def ErrNoTextToSend : Str := "412".toList
def ErrUnknownCommand : Str := "421".toList
def ErrNoMotd : Str := "422".toList
def ErrNoNicknameGiven : Str := "431".toList
def ErrErroneousNickname : Str := "432".toList
def ErrServiceConfused : Str := "435".toList
def ErrNotOnChannel : Str := "442".toList
def ErrNoNickChange : Str := "447".toList
def ErrForbiddenChannel : Str := "448".toList
def ErrNotRegistered : Str := "451".toList
def ErrNeedMoreParams : Str := "461".toList
def ErrAlreadyRegistered : Str := "462".toList
def ErrChannelIsFull : Str := "471".toList
def ErrBadChannelKey : Str := "475".toList
def ErrChanOpPrivsNeeded : Str := "482".toList

/-- `numerics.format` (irc/numerics.go): `":%s %s %s %s"` of the advertised
server name, the numeric, the target and the already-rendered message text. -/
def fmtNum (cfg : Config) (numeric target text : Str) : OutLine :=
  ':' :: cfg.advertisedName ++ ' ' :: numeric ++ ' ' :: target ++ ' ' :: text

/-- `numerics.formatSimpleReply`: wraps the message as the trailing argument. -/
def formatSimpleReply (cfg : Config) (numeric target msg : Str) : OutLine :=
  fmtNum cfg numeric target (':' :: msg)

/-! ## Shared gateway helpers (irc/commands.go) -/

/-- `getUser` (commands.go): the nick truncated to ten characters and
lower-cased. -/
def getUser (nick : Str) : Str := goToLower (nick.take 10)

/-- `Client.getHost` (commands.go). -/
def getHost (cfg : Config) : Str := "users.".toList ++ cfg.advertisedName

/-- `Client.getNickUserAtHost` (commands.go): `nick!user@host`. -/
def getNickUserAtHost (cfg : Config) (nick : Str) : Str :=
  nick ++ '!' :: getUser nick ++ '@' :: getHost cfg

/-- `Client.botNickUserAtHost` (commands.go). -/
def botNickUserAtHost (cfg : Config) : Str :=
  cfg.botNick ++ '!' :: cfg.botUsername ++ '@' :: cfg.botHostname

/-- `CtcpMagic` (commands.go): the CTCP delimiter byte 0x01. -/
def CtcpMagic : Char := Char.ofNat 1

/-- `isEmote` (commands.go): detect and strip the CTCP ACTION envelope;
`none` models the index panic on an empty message (the one call site guards
against empty input). -/
def isEmote (msg : Str) : Option (Bool × Str) :=
  match msg with
  | [] => none
  | c :: _ =>
    if c = CtcpMagic ∧ msg.getLast? = some CtcpMagic ∧
        msg.length > "ACTION".toList.length + 2 ∧
        (msg.drop 1).take "ACTION".toList.length = "ACTION".toList then
      some (true, (msg.drop ("ACTION".toList.length + 2)).take
        (msg.length - 1 - ("ACTION".toList.length + 2)))
    else
      some (false, msg)

/-- `makeEmote` (commands.go): wrap a message in the CTCP ACTION envelope. -/
def makeEmote (msg : Str) : Str :=
  CtcpMagic :: "ACTION ".toList ++ msg ++ [CtcpMagic]

/-- `joinIntoLines` loop body (commands.go): `ret` and `curLine` thread the
two Go locals; `none` models the panic on a piece that cannot fit. -/
def joinIntoLinesGo (charsPerLine : Nat) (joiner tj : Str) :
    List Str → Str → List Str → Option (List Str)
  | ret, curLine, [] => some (ret ++ [curLine])
  | ret, curLine, val :: rest =>
    if tj.length + val.length > charsPerLine then none
    else if curLine.length = 0 then joinIntoLinesGo charsPerLine joiner tj ret val rest
    else if curLine.length + joiner.length + val.length > charsPerLine then
      joinIntoLinesGo charsPerLine joiner tj (ret ++ [curLine ++ tj]) val rest
    else joinIntoLinesGo charsPerLine joiner tj ret (curLine ++ joiner ++ val) rest

/-- `joinIntoLines` (commands.go): assemble `pieces` into lines of at most —
per its comment — `charsPerLine` characters, separated by `joiner`, ending
each continued line with the space-trimmed joiner.  `none` models the panic
on an impossibly long piece. -/
def joinIntoLines (charsPerLine : Nat) (pieces : List Str) (joiner : Str) :
    Option (List Str) :=
  joinIntoLinesGo charsPerLine joiner (goTrimSpace joiner) [] [] pieces

-- The seven rows of `joinLineTests` (joinlines_test.go).
example : joinIntoLines 5 ["a".toList, "b".toList, "c".toList] " ".toList =
    some ["a b c".toList] := by decide
example : joinIntoLines 3 ["a".toList, "b".toList, "c".toList] " ".toList =
    some ["a b".toList, "c".toList] := by decide
example : joinIntoLines 2 ["a".toList, "b".toList, "c".toList] " ".toList =
    some ["a".toList, "b".toList, "c".toList] := by decide
example : joinIntoLines 1 ["a".toList, "b".toList, "c".toList] " ".toList =
    some ["a".toList, "b".toList, "c".toList] := by decide
example : joinIntoLines 2 ["a".toList, "b".toList, "c".toList] ", ".toList =
    some ["a,".toList, "b,".toList, "c".toList] := by decide
example : joinIntoLines 3 ["a".toList, "b".toList, "c".toList] ", ".toList =
    some ["a,".toList, "b,".toList, "c".toList] := by decide
example : joinIntoLines 4 ["a".toList, "b".toList, "c".toList] ", ".toList =
    some ["a, b,".toList, "c".toList] := by decide

/-- `totalUserCount` (commands.go). -/
def totalUserCount (game : GameInfo) : Nat :=
  game.Players.length + game.Spectators.length

/-- The apostrophe character (U+0027), used in rendered topic text. -/
def apos : Char := Char.ofNat 39

/-- `makeGameTopic` (commands.go). -/
def makeGameTopic (game : GameInfo) : Str :=
  let passwdLabel : Str := if game.HasPassword then "(Has password.) ".toList else []
  game.Host ++ apos :: "s game (".toList ++ GameStateMsgs game.State ++ "). ".toList ++
    passwdLabel ++ Itoa game.GameOptions.ScoreLimit ++ " score goal. ".toList ++
    Itoa game.Players.length ++ '/' :: Itoa game.GameOptions.PlayerLimit ++
    " players, ".toList ++ Itoa game.Spectators.length ++ '/' ::
    Itoa game.GameOptions.SpectatorLimit ++ " spectators.".toList

/-- `Client.getTopic` (commands.go); the `GameInfo` argument is optional as
in the source (nil for the global channel). -/
def getTopic (cfg : Config) (st : ClientState) (channel : Str)
    (gameInfo : Option GameInfo) : Str :=
  if channel = cfg.globalChannel then
    if st.globalChatEnabled then "Global chat".toList else "Global chat (disabled)".toList
  else
    match gameInfo with
    | some gi => makeGameTopic gi
    | none => "(error generating topic)".toList

/-- `Client.getGameFromChannel` (commands.go): parse a channel name into a
game id and spectate flag; `none` models the `badChannel` error return. -/
def getGameFromChannel (cfg : Config) (channel : Str) : Option (Int × Bool) :=
  if cfg.gameChannelPfx.isPrefixOf channel then
    match Atoi (channel.drop cfg.gameChannelPfx.length) with
    | some id => some (id, false)
    | none => none
  else if cfg.spectateGameChannelPfx.isPrefixOf channel then
    match Atoi (channel.drop cfg.spectateGameChannelPfx.length) with
    | some id => some (id, true)
    | none => none
  else none

/-- `Client.getGameChannel` (commands.go): synthesize the channel name of the
current game membership, or the empty string without one. -/
def getGameChannel (cfg : Config) (st : ClientState) : Str :=
  match st.gameId with
  | none => []
  | some g =>
    if st.gameIsSpectate then cfg.spectateGameChannelPfx ++ Itoa g
    else cfg.gameChannelPfx ++ Itoa g

/-- `blackCardText` (commands.go). -/
def blackCardText (card : BlackCardData) : Str :=
  "(Pick ".toList ++ Itoa card.Pick ++ ", source ".toList ++ card.Watermark ++
    ") ".toList ++ card.Text

/-- `whiteCardText` (commands.go). -/
def whiteCardText (card : WhiteCardData) : Str :=
  card.Text ++ " (source ".toList ++ card.Watermark ++ ")".toList

/-- `getJudge` (commands.go): the first player whose status is JUDGE or
JUDGING; the empty string if there is none. -/
def getJudge (playerInfo : List GamePlayerInfo) : Str :=
  match playerInfo.find? (fun p => p.Status == .JUDGE || p.Status == .JUDGING) with
  | some p => p.Name
  | none => []

/-! ## Command handlers (irc/commands.go, irc/client.go)

Each handler returns `some (state, lines)` — the updated session state and
the lines enqueued on `client.data` in order — or `none` for a run that
panics (nil-pointer dereference or a `joinIntoLines` panic). -/

/-- Result type of one handler run. -/
abbrev HandlerOut := Option (ClientState × List OutLine)

/-- Sequence two emitting computations, concatenating their output lines
(models consecutive Go statements that enqueue lines and mutate the
session). -/
def andThen (r : HandlerOut) (f : ClientState → HandlerOut) : HandlerOut :=
  match r with
  | none => none
  | some (st, ls) =>
    match f st with
    | none => none
    | some (st2, ls2) => some (st2, ls ++ ls2)

/-- The error message of `getGameFromChannel`'s `badChannel` return
(commands.go). -/
def badChannelMsg : Str :=
  "Channel name does not match game channel name format.".toList

/-- First-character class of `validNickRegex` = `^[a-zA-Z_][a-zA-Z0-9_]{2,29}$`. -/
def isNickStartChar (c : Char) : Bool :=
  ('a' ≤ c && c ≤ 'z') || ('A' ≤ c && c ≤ 'Z') || c = '_'

/-- Continuation-character class of `validNickRegex`. -/
def isNickChar (c : Char) : Bool := isNickStartChar c || ('0' ≤ c && c ≤ '9')

/-- `validNickRegex.MatchString` (client.go). -/
def validNick (s : Str) : Bool :=
  match s with
  | [] => false
  | c :: rest =>
    isNickStartChar c && rest.all isNickChar &&
      decide (2 ≤ rest.length) && decide (rest.length ≤ 29)

/-- `handleCap`. -/
def handleCap (cfg : Config) (_bk : Backend) (st : ClientState) (msg : Message) :
    HandlerOut :=
  some (st, [formatSimpleReply cfg ErrUnknownCommand msg.cmd "Unsupported command".toList])

/-- `handleUnregisteredNick`. -/
def handleUnregisteredNick (cfg : Config) (_bk : Backend) (st : ClientState)
    (msg : Message) : HandlerOut :=
  if msg.args.length < 1 then
    some (st, [formatSimpleReply cfg ErrNoNicknameGiven msg.cmd "No nickname given".toList])
  else if validNick (msg.args.headD []) then
    some ({ st with nick := msg.args.headD [] }, [])
  else
    some (st, [formatSimpleReply cfg ErrErroneousNickname msg.cmd "Erroneous Nickname".toList])

/-- `handleRegisteredNick`. -/
def handleRegisteredNick (cfg : Config) (_bk : Backend) (st : ClientState)
    (msg : Message) : HandlerOut :=
  some (st, [formatSimpleReply cfg ErrNoNickChange msg.cmd "Nickname change not supported.".toList])

/-- `handleUnregisteredPass`. -/
def handleUnregisteredPass (cfg : Config) (_bk : Backend) (st : ClientState)
    (msg : Message) : HandlerOut :=
  if msg.args.length < 1 then
    some (st, [formatSimpleReply cfg ErrNeedMoreParams msg.cmd "Not enough parameters".toList])
  else
    some ({ st with password := msg.args.headD [] }, [])

/-- `handleRegisteredPassOrUser`. -/
def handleRegisteredPassOrUser (cfg : Config) (_bk : Backend) (st : ClientState)
    (msg : Message) : HandlerOut :=
  some (st, [formatSimpleReply cfg ErrAlreadyRegistered msg.cmd "Already registered".toList])

/-- `handleUnregisteredUser`. -/
def handleUnregisteredUser (_cfg : Config) (_bk : Backend) (st : ClientState)
    (_msg : Message) : HandlerOut :=
  some ({ st with hasUser := true }, [])

/-- `handleMotd`. -/
def handleMotd (cfg : Config) (_bk : Backend) (st : ClientState) (_msg : Message) :
    HandlerOut :=
  some (st, [formatSimpleReply cfg ErrNoMotd st.nick "No MOTD configured.".toList])

/-- `Client.disconnect`: the final `ERROR` line written directly to the
socket, then teardown (the best-effort backend logout has no observable
effect here). -/
def disconnect (st : ClientState) (why : Str) : ClientState × List OutLine :=
  ({ st with closed := true },
   ["ERROR :Closing Link: ".toList ++ st.nick ++ '[' :: st.addr ++ "] (".toList ++
     why ++ ")".toList])

/-- `handleQuit`. -/
def handleQuit (_cfg : Config) (_bk : Backend) (st : ClientState) (_msg : Message) :
    HandlerOut :=
  some (disconnect st ("Quit: ".toList ++ st.nick))

/-- `irc.ChannelInfo`. -/
structure ChannelInfo where
  name : Str
  totalUsers : Nat
  topic : Str
deriving DecidableEq

/-- `Client.getChannels` (commands.go). -/
def getChannels (cfg : Config) (bk : Backend) (st : ClientState) :
    Except Str (List ChannelInfo) :=
  match bk.gameList with
  | .error e => .error e
  | .ok games =>
    match bk.names with
    | .error e => .error e
    | .ok names =>
      let userCount := names.length
      .ok ({ name := cfg.globalChannel, totalUsers := userCount + 1,
             topic := getTopic cfg st cfg.globalChannel none } ::
        games.flatMap (fun game =>
          { name := cfg.gameChannelPfx ++ Itoa game.Id,
            totalUsers := totalUserCount game,
            topic := makeGameTopic game } ::
          (if game.GameOptions.SpectatorLimit > 0 then
            [{ name := cfg.spectateGameChannelPfx ++ Itoa game.Id,
               totalUsers := totalUserCount game,
               topic := "SPECTATE: ".toList ++ makeGameTopic game }]
           else [])))

/-- `Client.sendLUsers` (commands.go). -/
def sendLUsers (cfg : Config) (bk : Backend) (st : ClientState) : HandlerOut :=
  match getChannels cfg bk st with
  | .error e =>
    some (st, [fmtNum cfg ErrServiceConfused st.nick
      (":Error retrieving game list: ".toList ++ e)])
  | .ok channels =>
    match bk.names with
    | .error e =>
      some (st, [fmtNum cfg ErrServiceConfused st.nick
        (":Error retrieving user list: ".toList ++ e)])
    | .ok names =>
      let channelCount := channels.length
      let userCount := names.length
      some (st,
        [fmtNum cfg RplLUserClient st.nick
           (":There are ".toList ++ Itoa userCount ++ " users on 1 server".toList),
         fmtNum cfg RplLUserOp st.nick "0 :operator(s) online".toList,
         fmtNum cfg RplLUserChannels st.nick
           (Itoa channelCount ++ " :channels formed".toList),
         fmtNum cfg RplLUserMe st.nick
           (":I have ".toList ++ Itoa userCount ++ " clients and 0 servers".toList),
         fmtNum cfg RplLocalUsers st.nick
           (":Current Local Users: ".toList ++ Itoa userCount ++ "  Max: ".toList ++
             Itoa userCount),
         fmtNum cfg RplGlobalUsers st.nick
           (":Current Global Users: ".toList ++ Itoa userCount ++ "  Max: ".toList ++
             Itoa userCount)])

/-- `handleLUsers`. -/
def handleLUsers (cfg : Config) (bk : Backend) (st : ClientState) (_msg : Message) :
    HandlerOut :=
  sendLUsers cfg bk st

/-- `Client.handleTopicImpl` (commands.go). -/
def handleTopicImpl (cfg : Config) (bk : Backend) (st : ClientState)
    (args : List Str) : HandlerOut :=
  if args.length = 0 then
    some (st, [fmtNum cfg ErrNeedMoreParams st.nick "TOPIC :Not enough parameters".toList])
  else if args.length = 1 then
    let a0 := args.headD []
    if a0 = cfg.globalChannel then
      some (st,
        [fmtNum cfg RplTopic st.nick (a0 ++ " :".toList ++ getTopic cfg st a0 none),
         fmtNum cfg RplTopicWhoTime st.nick
           (a0 ++ ' ' :: botNickUserAtHost cfg ++ ' ' :: Itoa (st.serverStarted / 1000))])
    else
      match st.gameId with
      | none =>
        some (st, [fmtNum cfg ErrNotOnChannel st.nick (a0 ++ " :Not in channel.".toList)])
      | some myId =>
        match getGameFromChannel cfg a0 with
        | none =>
          some (st, [fmtNum cfg ErrNotOnChannel st.nick (a0 ++ " :".toList ++ badChannelMsg)])
        | some (requestedId, _) =>
          if requestedId ≠ myId then
            some (st, [fmtNum cfg ErrNotOnChannel st.nick (a0 ++ " :Not in channel.".toList)])
          else
            let r := bk.gameInfo requestedId
            match r.err with
            | some e =>
              some (st, [fmtNum cfg ErrNotOnChannel st.nick (a0 ++ " :".toList ++ e)])
            | none =>
              some (st,
                [fmtNum cfg RplTopic st.nick
                   (a0 ++ " :".toList ++ getTopic cfg st a0 (some r.resp.GameInfo)),
                 fmtNum cfg RplTopicWhoTime st.nick
                   (a0 ++ ' ' :: getNickUserAtHost cfg r.resp.GameInfo.Host ++ ' ' ::
                     Itoa (r.resp.GameInfo.Created / 1000))])
  else
    some (st, [fmtNum cfg ErrChanOpPrivsNeeded st.nick
      ("TOPIC :You can".toList ++ apos :: "t do that.".toList)])

/-- `handleTopic`. -/
def handleTopic (cfg : Config) (bk : Backend) (st : ClientState) (msg : Message) :
    HandlerOut :=
  handleTopicImpl cfg bk st msg.args

/-- `Client.handleNamesImpl` (commands.go); `none` models the nil dereference
of `*client.gameId` for a syntactically valid game channel while not in any
game, and the `joinIntoLines` panic. -/
def handleNamesImpl (cfg : Config) (bk : Backend) (st : ClientState)
    (args : List Str) : HandlerOut :=
  if args.length = 0 then
    some (st, [fmtNum cfg ErrNeedMoreParams st.nick "NAMES :Not enough parameters".toList])
  else
    let a0 := args.headD []
    if a0 = cfg.globalChannel then
      let names := match bk.names with | .ok ns => ns | .error _ => []
      match joinIntoLines 300 (names ++ ['&' :: cfg.botNick]) " ".toList with
      | none => none
      | some lines =>
        some (st,
          lines.map (fun line =>
            fmtNum cfg RplNames st.nick ("= ".toList ++ a0 ++ " :".toList ++ line)) ++
          [fmtNum cfg RplEndNames st.nick (a0 ++ " :End of /NAMES list".toList)])
    else
      match getGameFromChannel cfg a0 with
      | none =>
        some (st, [fmtNum cfg ErrNotOnChannel st.nick (a0 ++ " :Not in channel".toList)])
      | some (gid, _) =>
        match st.gameId with
        | none => none
        | some myId =>
          if gid ≠ myId then
            some (st, [fmtNum cfg ErrNotOnChannel st.nick (a0 ++ " :Not in channel".toList)])
          else
            let r := bk.gameInfo gid
            match r.err with
            | some e =>
              some (st, [fmtNum cfg ErrServiceConfused st.nick
                (a0 ++ " :Cannot retrieve names: ".toList ++ e)])
            | none =>
              let players := r.resp.GameInfo.Players.map (fun p =>
                if p = r.resp.GameInfo.Host then '@' :: p else '+' :: p)
              let st' := if r.resp.GameInfo.Players.contains r.resp.GameInfo.Host then
                  { st with gameHost := r.resp.GameInfo.Host }
                else st
              match joinIntoLines 300
                  (players ++ r.resp.GameInfo.Spectators ++ ['&' :: cfg.botNick])
                  " ".toList with
              | none => none
              | some lines =>
                some (st',
                  lines.map (fun line =>
                    fmtNum cfg RplNames st'.nick ("= ".toList ++ a0 ++ " :".toList ++ line)) ++
                  [fmtNum cfg RplEndNames st'.nick (a0 ++ " :End of /NAMES list".toList)])

/-- `handleNames`. -/
def handleNames (cfg : Config) (bk : Backend) (st : ClientState) (msg : Message) :
    HandlerOut :=
  handleNamesImpl cfg bk st msg.args

/-- `Client.handleModeImpl` (commands.go). -/
def handleModeImpl (cfg : Config) (bk : Backend) (st : ClientState)
    (args : List Str) : HandlerOut :=
  if args.length = 0 then
    some (st, [fmtNum cfg ErrNeedMoreParams st.nick "MODE :Not enough parameters".toList])
  else
    let a0 := args.headD []
    if "#".toList.isPrefixOf a0 then
      if args.length = 1 then
        if a0 = cfg.globalChannel then
          let modes := "+t".toList ++ (if !st.globalChatEnabled then ['m'] else []) ++
            (if st.broadcastingUsers then ['n'] else [])
          some (st,
            [fmtNum cfg RplChannelModeIs st.nick (a0 ++ ' ' :: modes),
             fmtNum cfg RplCreationTime st.nick (a0 ++ ' ' :: Itoa (st.serverStarted / 1000))])
        else
          match st.gameId with
          | none =>
            some (st, [fmtNum cfg ErrNotOnChannel st.nick (a0 ++ " :Not in channel.".toList)])
          | some myId =>
            match getGameFromChannel cfg a0 with
            | none =>
              some (st, [fmtNum cfg ErrNotOnChannel st.nick (a0 ++ " :".toList ++ badChannelMsg)])
            | some (requestedId, _) =>
              if requestedId ≠ myId then
                some (st, [fmtNum cfg ErrNotOnChannel st.nick (a0 ++ " :Not in channel.".toList)])
              else
                let r := bk.gameInfo requestedId
                match r.err with
                | some e =>
                  some (st, [fmtNum cfg ErrNotOnChannel st.nick (a0 ++ " :".toList ++ e)])
                | none =>
                  let modes := "+nt".toList ++
                    (if r.resp.GameInfo.HasPassword then ['k'] else []) ++
                    "lL ".toList ++ Itoa (r.resp.GameInfo.GameOptions.PlayerLimit + 1) ++
                    ' ' :: Itoa (r.resp.GameInfo.GameOptions.SpectatorLimit + 1)
                  some (st,
                    [fmtNum cfg RplChannelModeIs st.nick (a0 ++ ' ' :: modes),
                     fmtNum cfg RplCreationTime st.nick
                       (a0 ++ ' ' :: Itoa (r.resp.GameInfo.Created / 1000))])
      else if args.getD 1 [] = "b".toList then
        some (st, [fmtNum cfg RplEndOfBanList st.nick
          (a0 ++ " :End of Channel Ban List".toList)])
      else
        some (st, [fmtNum cfg ErrChanOpPrivsNeeded st.nick
          ("MODE :You can".toList ++ apos :: "t do that.".toList)])
    else if a0 = st.nick then
      if args.length = 1 then
        let modes := '+' :: (if userIsAdmin st then ['o'] else []) ++
          (if st.userIdCode.length > 0 then ['r'] else [])
        some (st, [fmtNum cfg RplUModeIs st.nick modes])
      else
        some (st, [])
    else
      some (st, [])

/-- `handleMode`. -/
def handleMode (cfg : Config) (bk : Backend) (st : ClientState) (msg : Message) :
    HandlerOut :=
  handleModeImpl cfg bk st msg.args

/-- `Client.joinChannel` (commands.go): JOIN line, then topic and names
bursts for the channel. -/
def joinChannel (cfg : Config) (bk : Backend) (st : ClientState) (channel : Str) :
    HandlerOut :=
  andThen (some (st, [':' :: getNickUserAtHost cfg st.nick ++ " JOIN :".toList ++ channel]))
    (fun st1 => andThen (handleTopicImpl cfg bk st1 [channel])
      (fun st2 => handleNamesImpl cfg bk st2 [channel]))

/-- `util.GitBranch` (build-time stamp; inert in every statement below). -/
def gitBranch : Str := "master".toList

/-- `util.GitSummary` (build-time stamp; inert in every statement below). -/
def gitSummary : Str := "unknown".toList

/-- The RPL_ISUPPORT text advertised by `sendWelcome`. -/
def isupportText : Str :=
  ("MAXCHANNELS=2 CHANLIMIT=#:2 NICKLEN=30 CHANNELLEN=9 TOPICLEN=307 AWAYLEN=0 " ++
   "MAXTARGETS=1 MODES=1 CHANTYPES=# PREFIX=(aov)&@+ CHANMODES=,k,lL,voantk " ++
   "NETWORK=PYX CASEMAPPING=ascii :are supported by this server").toList

/-- `Client.sendWelcome` (commands.go): the registration burst. -/
def sendWelcome (cfg : Config) (bk : Backend) (st : ClientState) : HandlerOut :=
  andThen (some (st,
    [fmtNum cfg RplWelcome st.nick
       (":Welcome to the PYX IRC network ".toList ++ st.nick ++ '!' :: st.nick ++
         '@' :: st.addr),
     fmtNum cfg RplYourHost st.nick
       (":Your host is ".toList ++ cfg.advertisedName ++
         ", running version pyx-irc-".toList ++ gitBranch ++ '-' :: gitSummary),
     fmtNum cfg RplMyInfo st.nick
       (cfg.advertisedName ++ " pyx-irc-".toList ++ gitBranch ++ '-' :: gitSummary ++
         " Bor alvontk".toList),
     fmtNum cfg RplISupport st.nick isupportText]))
    (fun st1 => andThen (sendLUsers cfg bk st1)
      (fun st2 => andThen (handleMotd cfg bk st2 { cmd := [], args := [], orig := [] })
        (fun st3 =>
          let modes := '+' :: (if userIsAdmin st3 then ['o'] else []) ++
            (if st3.userIdCode.length > 0 then ['r'] else [])
          let modeLines := if modes ≠ ['+'] then
              [':' :: st3.nick ++ " MODE ".toList ++ st3.nick ++ " :".toList ++ modes]
            else []
          andThen (some (st3, modeLines))
            (fun st4 => joinChannel cfg bk st4 cfg.globalChannel))))

/-- `handlePing`. -/
def handlePing (cfg : Config) (_bk : Backend) (st : ClientState) (msg : Message) :
    HandlerOut :=
  some (st, [':' :: cfg.advertisedName ++ " PONG ".toList ++ cfg.advertisedName ++
    " :".toList ++ msg.args.headD []])

/-- One iteration of the `handleWho` name loop; `none` models the
`name[0:1]` index panic on an empty name. -/
def whoNameLine (cfg : Config) (st : ClientState) (hasArgs : Bool) (name : Str) :
    Option OutLine :=
  match name with
  | [] => none
  | c0 :: restName =>
    let modes := 'H' :: (if [c0] = Sigil_ADMIN then ['r'] else []) ++
      (if [c0] = Sigil_ID_CODE then ['r'] else [])
    -- `len(msg.args) > 0 && admin || idcode` parses as (args && admin) || idcode
    let strip := (hasArgs && [c0] == Sigil_ADMIN) || [c0] == Sigil_ID_CODE
    let modes2 := if strip then modes ++ [c0] else modes
    let name2 := if strip then restName else name
    some (fmtNum cfg RplWho st.nick
      (cfg.globalChannel ++ ' ' :: getUser name2 ++ ' ' :: getHost cfg ++ ' ' ::
        cfg.advertisedName ++ ' ' :: name2 ++ ' ' :: modes2 ++ " :0 ".toList ++ name2))

/-- `handleWho` (commands.go). -/
def handleWho (cfg : Config) (bk : Backend) (st : ClientState) (msg : Message) :
    HandlerOut :=
  if msg.args.length = 0 ∨ msg.args.headD [] = cfg.globalChannel then
    let names := match bk.names with | .ok ns => ns | .error _ => []
    match names.mapM (whoNameLine cfg st (msg.args.length > 0)) with
    | none => none
    | some nameLines =>
      let target := if msg.args.length > 0 then cfg.globalChannel else "*".toList
      some (st,
        fmtNum cfg RplWho st.nick
          (cfg.globalChannel ++ ' ' :: cfg.botUsername ++ ' ' :: cfg.advertisedName ++
            ' ' :: cfg.advertisedName ++ ' ' :: cfg.botNick ++ " HrB& :0 ".toList ++
            cfg.botNick) ::
        nameLines ++
        [fmtNum cfg RplEndOfWho st.nick (target ++ " :End of /WHO list".toList)])
  else if msg.args.headD [] = getGameChannel cfg st then
    some (st, [fmtNum cfg RplEndOfWho st.nick
      (msg.args.headD [] ++ " :End of /WHO list".toList)])
  else
    some (st, [fmtNum cfg ErrNotOnChannel st.nick
      (msg.args.headD [] ++ " :Not in channel".toList)])

/-- `handlePrivmsg` (commands.go); `none` models the `*client.gameId` nil
dereference on a well-formed game channel while not in any game. -/
def handlePrivmsg (cfg : Config) (bk : Backend) (st : ClientState) (msg : Message) :
    HandlerOut :=
  if msg.args.length = 0 then
    some (st, [fmtNum cfg ErrNeedMoreParams st.nick "PRIVMSG :Not enough parameters".toList])
  else if msg.args.length = 1 ∨ (msg.args.getD 1 []).length = 0 then
    some (st, [fmtNum cfg ErrNoTextToSend st.nick ":No text to send".toList])
  else
    let channel := msg.args.headD []
    match isEmote (msg.args.getD 1 []) with
    | none => none
    | some (emote, text) =>
      if channel = cfg.globalChannel then
        match bk.sendGlobalChat text emote with
        | some e =>
          some (st, [fmtNum cfg ErrCannotSendToChan st.nick
            (channel ++ " :Cannot send to channel: ".toList ++ e)])
        | none => some (st, [])
      else if !("#".toList.isPrefixOf channel) then
        some (st, [fmtNum cfg ErrNoSuchNick st.nick (channel ++ " :No such nick/channel".toList)])
      else
        match getGameFromChannel cfg channel with
        | none =>
          some (st, [fmtNum cfg ErrNoSuchNick st.nick (channel ++ " :No such nick/channel".toList)])
        | some (gid, _) =>
          match st.gameId with
          | none => none
          | some myId =>
            if gid ≠ myId then
              some (st, [fmtNum cfg ErrNoSuchNick st.nick
                (channel ++ " :No such nick/channel".toList)])
            else
              match bk.sendGameChat gid text emote with
              | some e =>
                some (st, [fmtNum cfg ErrCannotSendToChan st.nick
                  (channel ++ " :Cannot send to channel: ".toList ++ e)])
              | none => some (st, [])

/-- `strEqCI` (case-insensitive string comparison used for the bot nick;
its defining file is not among the sources — it folds case like
`strings.EqualFold`). -/
def strEqCI (a b : Str) : Bool := goToLower a == goToLower b

/-- RPL_WHOISBOT, used by `handleWhois` (its constant declaration is in a
newer numerics.go than the one among the sources). -/
def RplWhoisBot : Str := "335".toList

/-- `handleWhois` (commands.go). -/
def handleWhois (cfg : Config) (bk : Backend) (st : ClientState) (msg : Message) :
    HandlerOut :=
  if msg.args.length = 0 then
    some (st, [fmtNum cfg ErrNeedMoreParams st.nick "WHOIS :Not enough parameters".toList])
  else
    let a0 := msg.args.headD []
    if strEqCI cfg.botNick a0 then
      let channels := '&' :: cfg.globalChannel ++
        (match st.gameId with
         | some _ => ' ' :: '&' :: getGameChannel cfg st
         | none => [])
      some (st,
        [fmtNum cfg RplWhoisUser st.nick
           (cfg.botNick ++ ' ' :: cfg.botUsername ++ ' ' :: cfg.botHostname ++
             " * ".toList ++ cfg.botNick),
         fmtNum cfg RplWhoisChannels st.nick (cfg.botNick ++ " :".toList ++ channels),
         fmtNum cfg RplWhoisServer st.nick
           (cfg.botNick ++ ' ' :: cfg.advertisedName ++ " :".toList ++ cfg.pyxBaseAddress),
         fmtNum cfg RplWhoisOperator st.nick (cfg.botNick ++ " :is an Administrator".toList),
         fmtNum cfg RplWhoisBot st.nick (cfg.botNick ++ " :is a Bot".toList),
         fmtNum cfg RplEndOfWhois st.nick (cfg.botNick ++ " :End of /WHOIS list.".toList)])
    else
      let r := bk.whois a0
      match r.err with
      | some e =>
        some (st,
          [(if r.resp.ErrorCode = .NO_SUCH_USER then
              fmtNum cfg ErrNoSuchNick st.nick (a0 ++ " :No such nick/channel".toList)
            else
              fmtNum cfg ErrNoSuchNick st.nick (a0 ++ " :".toList ++ e)),
           fmtNum cfg RplEndOfWhois st.nick (a0 ++ " :End of /WHOIS list.".toList)])
      | none =>
        let nick := r.resp.Nickname
        let sigil := r.resp.Sigil
        let channels := sigil ++ cfg.globalChannel ++
          (match r.resp.GameId with
           | none => []
           | some gid =>
             let hostMark : Str := if r.resp.GameInfo.Host = nick then "@".toList else []
             let pfx := if r.resp.GameInfo.Spectators.contains nick then
                 cfg.spectateGameChannelPfx
               else cfg.gameChannelPfx
             ' ' :: (hostMark ++ pfx ++ Itoa gid))
        some (st,
          [fmtNum cfg RplWhoisUser st.nick
             (nick ++ ' ' :: getUser nick ++ ' ' :: getHost cfg ++ " * :".toList ++ nick)] ++
          (if r.resp.IpAddress.length > 0 then
            [fmtNum cfg RplWhoisHost st.nick
              (nick ++ " :is connecting from ".toList ++ r.resp.IpAddress)]
           else []) ++
          [fmtNum cfg RplWhoisChannels st.nick (nick ++ " :".toList ++ channels),
           fmtNum cfg RplWhoisServer st.nick
             (nick ++ ' ' :: cfg.advertisedName ++ " :".toList ++ cfg.pyxBaseAddress)] ++
          (if sigil = Sigil_ADMIN then
            [fmtNum cfg RplWhoisOperator st.nick (nick ++ " :is an Administrator".toList)]
           else []) ++
          (if r.resp.IdCode.length > 0 then
            [fmtNum cfg RplWhoisSpecial st.nick
              (nick ++ " :Verification code: ".toList ++ r.resp.IdCode)]
           else []) ++
          (if r.resp.ClientName.length > 0 then
            [fmtNum cfg RplWhoisSpecial st.nick
              (nick ++ " :Client: ".toList ++ r.resp.ClientName)]
           else []) ++
          [fmtNum cfg RplWhoisIdle st.nick
             (nick ++ ' ' :: Itoa (r.resp.Idle / 1000) ++ ' ' ::
               Itoa (r.resp.ConnectedAt / 1000) ++ " :seconds idle, signon time".toList),
           fmtNum cfg RplEndOfWhois st.nick (nick ++ " :/End of /WHOIS list.".toList)])

/-- `handleList` (commands.go). -/
def handleList (cfg : Config) (bk : Backend) (st : ClientState) (_msg : Message) :
    HandlerOut :=
  match getChannels cfg bk st with
  | .error e =>
    some (st, [fmtNum cfg ErrServiceConfused st.nick
      (":Error retrieving game list: ".toList ++ e)])
  | .ok channels =>
    some (st,
      fmtNum cfg RplListStart st.nick "Channel :Users  Name".toList ::
      channels.map (fun ch =>
        fmtNum cfg RplList st.nick
          (ch.name ++ ' ' :: Itoa (ch.totalUsers : Int) ++ " :".toList ++ ch.topic)) ++
      [fmtNum cfg RplListEnd st.nick ":End of /LIST".toList])

/-- `handlePart` (commands.go): leaving the global channel is refused
silently; a backend leave error whose code is NOT_IN_THAT_GAME or
INVALID_GAME is treated as a successful removal (desync healing); any other
backend error is surfaced as ErrServiceConfused and the membership kept.
`none` models the `*client.gameId` nil dereference. -/
def handlePart (cfg : Config) (bk : Backend) (st : ClientState) (msg : Message) :
    HandlerOut :=
  if msg.args.length = 0 then
    some (st, [fmtNum cfg ErrNeedMoreParams st.nick "PART :Not enough parameters".toList])
  else
    let a0 := msg.args.headD []
    if a0 = cfg.globalChannel then
      some (st, [])
    else
      match getGameFromChannel cfg a0 with
      | none =>
        some (st, [fmtNum cfg ErrNoSuchChannel st.nick (a0 ++ " :No such channel".toList)])
      | some (game, _) =>
        match st.gameId with
        | none => none
        | some myId =>
          if game ≠ myId then
            some (st, [fmtNum cfg ErrNoSuchChannel st.nick (a0 ++ " :No such channel".toList)])
          else
            let r := bk.leaveGame game
            match r.err with
            | some e =>
              if r.resp.ErrorCode ≠ .NOT_IN_THAT_GAME ∧ r.resp.ErrorCode ≠ .INVALID_GAME then
                some (st, [fmtNum cfg ErrServiceConfused st.nick
                  (a0 ++ " :Unable to leave channel: ".toList ++ e)])
              else
                some ({ st with gameId := none },
                  [':' :: getNickUserAtHost cfg st.nick ++ " PART ".toList ++ a0])
            | none =>
              some ({ st with gameId := none },
                [':' :: getNickUserAtHost cfg st.nick ++ " PART ".toList ++ a0])

/-- `handleJoin` (commands.go): one game at a time; only spectate channels
can be joined; backend spectate errors map to protocol errors code by code. -/
def handleJoin (cfg : Config) (bk : Backend) (st : ClientState) (msg : Message) :
    HandlerOut :=
  if msg.args.length = 0 then
    some (st, [fmtNum cfg ErrNeedMoreParams st.nick "JOIN :Not enough parameters".toList])
  else
    match st.gameId with
    | some _ =>
      some (st, [fmtNum cfg ErrTooManyChannels st.nick
        (msg.args.headD [] ++ " :Too many joined channels.".toList)])
    | none =>
      let a0 := msg.args.headD []
      match getGameFromChannel cfg a0 with
      | none =>
        some (st, [fmtNum cfg ErrForbiddenChannel st.nick
          (a0 ++ " :Forbidden channel: ".toList ++ badChannelMsg)])
      | some (gid, spectate) =>
        let key := if msg.args.length ≥ 2 then msg.args.getD 1 [] else []
        if spectate then
          let r := bk.spectateGame gid key
          match r.err with
          | some e =>
            some (st,
              [match r.resp.ErrorCode with
               | .CANNOT_JOIN_ANOTHER_GAME =>
                 fmtNum cfg ErrTooManyChannels st.nick
                   (a0 ++ " :Too many joined channels".toList)
               | .GAME_FULL =>
                 fmtNum cfg ErrChannelIsFull st.nick (a0 ++ " :Channel is full".toList)
               | .INVALID_GAME =>
                 fmtNum cfg ErrNoSuchChannel st.nick (a0 ++ " :No such channel".toList)
               | .WRONG_PASSWORD =>
                 fmtNum cfg ErrBadChannelKey st.nick (a0 ++ " :Wrong key".toList)
               | _ =>
                 fmtNum cfg ErrServiceConfused st.nick
                   (a0 ++ " :Cannot join game: ".toList ++ e)])
          | none =>
            joinChannel cfg bk
              { st with gameId := some gid, gameIsSpectate := spectate,
                        gameInProgress := false } a0
        else
          some (st, [fmtNum cfg ErrForbiddenChannel st.nick
            (a0 ++ " :Cannot join game playing channels".toList)])

/-- `handleWhowas`. -/
def handleWhowas (cfg : Config) (_bk : Backend) (st : ClientState) (msg : Message) :
    HandlerOut :=
  if msg.args.length = 0 then
    some (st, [fmtNum cfg ErrNeedMoreParams st.nick "WHOWAS :Not enough parameters".toList])
  else
    some (st,
      [fmtNum cfg ErrWasNoSuchNick st.nick
         (msg.args.headD [] ++ " :WHOWAS is not supported.".toList),
       fmtNum cfg RplEndOfWhowas st.nick (msg.args.headD [] ++ " :/End of WHOWAS".toList)])

/-- `Client.handleIncomingRegistered` (client.go): the RegisteredHandlers
dispatch table, with the unknown-command reply as default. -/
def handleIncomingRegistered (cfg : Config) (bk : Backend) (st : ClientState)
    (msg : Message) : HandlerOut :=
  if msg.cmd = "CAP".toList then handleCap cfg bk st msg
  else if msg.cmd = "JOIN".toList then handleJoin cfg bk st msg
  else if msg.cmd = "LIST".toList then handleList cfg bk st msg
  else if msg.cmd = "LUSERS".toList then handleLUsers cfg bk st msg
  else if msg.cmd = "MODE".toList then handleMode cfg bk st msg
  else if msg.cmd = "MOTD".toList then handleMotd cfg bk st msg
  else if msg.cmd = "NAMES".toList then handleNames cfg bk st msg
  else if msg.cmd = "NICK".toList then handleRegisteredNick cfg bk st msg
  else if msg.cmd = "PART".toList then handlePart cfg bk st msg
  else if msg.cmd = "PASS".toList then handleRegisteredPassOrUser cfg bk st msg
  else if msg.cmd = "PING".toList then handlePing cfg bk st msg
  else if msg.cmd = "PRIVMSG".toList then handlePrivmsg cfg bk st msg
  else if msg.cmd = "QUIT".toList then handleQuit cfg bk st msg
  else if msg.cmd = "TOPIC".toList then handleTopic cfg bk st msg
  else if msg.cmd = "USER".toList then handleRegisteredPassOrUser cfg bk st msg
  else if msg.cmd = "WHO".toList then handleWho cfg bk st msg
  else if msg.cmd = "WHOIS".toList then handleWhois cfg bk st msg
  else if msg.cmd = "WHOWAS".toList then handleWhowas cfg bk st msg
  else some (st, [formatSimpleReply cfg ErrUnknownCommand msg.cmd "Unknown command".toList])

/-- The registration attempt that `handleIncomingUnregistered` runs after
every recognized command (client.go 133-145): once the nickname and
user-info preconditions hold, log in to the backend — on failure disconnect;
on success install the backend session on the client, mark it registered
(the only assignment to the flag in the program) and send the welcome burst. -/
def unregContinue (cfg : Config) (bk : Backend) (res : HandlerOut) : HandlerOut :=
  andThen res (fun st1 =>
    if st1.nick ≠ [] ∧ st1.hasUser then
      match bk.login st1.nick st1.password with
      | .error e => some (disconnect st1 e)
      | .ok sess =>
        andThen (some ({ st1 with
            userName := sess.userName, userSigil := sess.userSigil,
            userIdCode := sess.userIdCode, serverStarted := sess.serverStarted,
            globalChatEnabled := sess.globalChatEnabled,
            broadcastingUsers := sess.broadcastingUsers,
            registered := true }, []))
          (fun st3 => sendWelcome cfg bk st3)
    else some (st1, []))

/-- `Client.handleIncomingUnregistered` (client.go 127-147): dispatch over
the UnregisteredHandlers table, each recognized command followed by the
registration attempt; an unrecognized command is answered with the
not-registered error (and no registration attempt). -/
def handleIncomingUnregistered (cfg : Config) (bk : Backend) (st : ClientState)
    (msg : Message) : HandlerOut :=
  if msg.cmd = "CAP".toList then unregContinue cfg bk (handleCap cfg bk st msg)
  else if msg.cmd = "NICK".toList then
    unregContinue cfg bk (handleUnregisteredNick cfg bk st msg)
  else if msg.cmd = "PASS".toList then
    unregContinue cfg bk (handleUnregisteredPass cfg bk st msg)
  else if msg.cmd = "USER".toList then
    unregContinue cfg bk (handleUnregisteredUser cfg bk st msg)
  else
    some (st, [formatSimpleReply cfg ErrNotRegistered msg.cmd "You have not registered".toList])

/-- `Client.handleIncoming` (client.go): parse the raw line and dispatch on
the registration state. -/
def handleIncoming (cfg : Config) (bk : Backend) (st : ClientState) (raw : Str) :
    HandlerOut :=
  let msg := NewMessage raw
  if !st.registered then handleIncomingUnregistered cfg bk st msg
  else handleIncomingRegistered cfg bk st msg

/-- One connection's processing of a sequence of inbound lines
(the `manager.receive` loop feeding `handleIncoming`). -/
def runLines (cfg : Config) (bk : Backend) : ClientState → List Str → HandlerOut
  | st, [] => some (st, [])
  | st, raw :: rest =>
    andThen (handleIncoming cfg bk st raw) (fun st1 => runLines cfg bk st1 rest)

/-! ## Backend event handlers (irc/events.go) -/

/-- `eventChat` (events.go): own chat is suppressed; a wall becomes a
notice; a game-tagged event is forwarded only when the id matches the
session's membership, a mismatch is logged and dropped; `none` models the
`*client.gameId` nil dereference hit when a game-tagged event arrives while
the session holds no membership. -/
def eventChat (cfg : Config) (st : ClientState) (ev : Event) : HandlerOut :=
  if ev.From = st.userName then
    some (st, [])
  else if ev.Wall then
    some (st, [':' :: getNickUserAtHost cfg ev.From ++ " NOTICE ".toList ++ st.nick ++
      " :Global notice: ".toList ++ ev.Message])
  else
    let text := if ev.Emote then makeEmote ev.Message else ev.Message
    match ev.GameId with
    | some g =>
      match st.gameId with
      | none => none
      | some myId =>
        if g = myId then
          let target := if st.gameIsSpectate then cfg.spectateGameChannelPfx ++ Itoa g
            else cfg.gameChannelPfx ++ Itoa g
          some (st, [':' :: getNickUserAtHost cfg ev.From ++ " PRIVMSG ".toList ++
            target ++ " :".toList ++ text])
        else
          some (st, [])
    | none =>
      some (st, [':' :: getNickUserAtHost cfg ev.From ++ " PRIVMSG ".toList ++
        cfg.globalChannel ++ " :".toList ++ text])

/-- `Client.sendBotMessageToGame` (events.go): one bot PRIVMSG to the
session's game channel. -/
def sendBotMessageToGame (cfg : Config) (st : ClientState) (text : Str) : OutLine :=
  ':' :: botNickUserAtHost cfg ++ " PRIVMSG ".toList ++ getGameChannel cfg st ++
    " :".toList ++ text

/-- The inner loop of `eventGameRoundComplete`: render one grouping's cards
as ` [text (source mark)]` fragments. -/
def renderGroup (cards : List WhiteCardData) : Str :=
  cards.foldl (fun acc card => acc ++ " [".toList ++ whiteCardText card ++ "]".toList) []

/-- The grouping scan of `eventGameRoundComplete` (events.go): find the first
cached grouping whose first card has the winning id and render it; the empty
string when none matches; `none` models the `cards[0]` index panic on an
empty grouping. -/
def findWinningRender : List (List WhiteCardData) → Int → Option Str
  | [], _ => some []
  | cards :: rest, w =>
    match cards with
    | [] => none
    | c :: _ =>
      if c.Id = w then some (renderGroup cards) else findWinningRender rest w

/-- `Client.showScoreboard` (events.go); `none` models a panic
(`*client.gameId` nil dereference or a `joinIntoLines` panic); a game-info
error produces no lines (the error is only logged and returned). -/
def showScoreboard (cfg : Config) (bk : Backend) (st : ClientState) :
    Option (List OutLine) :=
  match st.gameId with
  | none => none
  | some gid =>
    let r := bk.gameInfo gid
    match r.err with
    | some _ => some []
    | none =>
      let winner := r.resp.PlayerInfo.foldl
        (fun w info => if info.Status = .WINNER then info.Name else w) []
      let scores := r.resp.PlayerInfo.map (fun info =>
        info.Name ++ " with ".toList ++ Itoa info.Score ++ " point".toList ++
          (if info.Score = 1 then [] else ['s']))
      match joinIntoLines 300 scores ", ".toList with
      | none => none
      | some assembled =>
        let firstLine :=
          if winner ≠ [] then
            sendBotMessageToGame cfg st
              ("The game was won by ".toList ++ winner ++
                "! The final scores are: ".toList ++ assembled.headD [] ++ ".".toList)
          else
            sendBotMessageToGame cfg st
              ("The current scores are: ".toList ++ assembled.headD [] ++ ".".toList)
        some (firstLine :: (assembled.drop 1).map (sendBotMessageToGame cfg st))

/-- `eventGameRoundComplete` (events.go): resolve the winning grouping by its
first card's id against the cached groupings, announce the winner with the
rendered grouping, then the scoreboard.  The boolean records whether the run
panicked after the lines already produced (nil `gamePlayedCards`, an empty
cached grouping, or a panic inside `showScoreboard`). -/
def eventGameRoundComplete (cfg : Config) (bk : Backend) (st : ClientState)
    (ev : Event) : List OutLine × Bool :=
  match st.gamePlayedCards with
  | none => ([], true)
  | some groupings =>
    match findWinningRender groupings ev.WinningCard with
    | none => ([], true)
    | some txt =>
      let line := sendBotMessageToGame cfg st
        ("The round was won by ".toList ++ ev.RoundWinner ++ " by playing".toList ++
          txt ++ ".".toList)
      match showScoreboard cfg bk st with
      | none => ([line], true)
      | some ls => (line :: ls, false)

/-! ## Gateway-client request serials (pyx/client.go) -/

/-- `AjaxRequest_SERIAL`: the form-data key of the per-session serial (its
wire spelling is declared in the absent pyx constants file; only its identity
matters). -/
def AjaxRequest_SERIAL : Str := "serial".toList

/-- One outgoing HTTP request of the gateway client: target path and posted
form data. -/
structure PyxRequest where
  path : Str
  formData : List (Str × Str)
deriving DecidableEq

/-- `Client.sendNoErrorCheck` (pyx/client.go), restricted to what it puts on
the wire: copy the request map, stamp the current serial under
`AjaxRequest_SERIAL`, post to `/AjaxServlet`, and increment the serial. -/
def sendNoErrorCheckReq (serial : Int) (request : List (Str × Str)) :
    PyxRequest × Int :=
  ({ path := "/AjaxServlet".toList,
     formData := mapSet request AjaxRequest_SERIAL (Itoa serial) }, serial + 1)

/-- The long-poll request issued by `Client.receive` (pyx/client.go):
`client.http.NewRequest().Post("/LongPollServlet")` — no form data is set. -/
def longPollReq : PyxRequest :=
  { path := "/LongPollServlet".toList, formData := [] }

/-- One outgoing backend call of a session: an AjaxServlet operation with its
request map, or one blocking long poll. -/
inductive PyxCall where
  | ajax (request : List (Str × Str))
  | poll
deriving DecidableEq

/-- The requests a session's gateway client puts on the wire for a sequence
of calls, threading the per-session serial counter (a Go `int` starting at
its zero value on a fresh client). -/
def runCalls (serial : Int) : List PyxCall → List PyxRequest
  | [] => []
  | .ajax req :: rest =>
    (sendNoErrorCheckReq serial req).1 ::
      runCalls (sendNoErrorCheckReq serial req).2 rest
  | .poll :: rest => longPollReq :: runCalls serial rest

/-- The serial numbers actually carried, in wire order: the decoded value of
the serial form field of each request that has one. -/
def carriedSerials (reqs : List PyxRequest) : List Int :=
  reqs.filterMap (fun r => (r.formData.lookup AjaxRequest_SERIAL).bind Atoi)

/-! ## Concrete sample values (used to evaluate the definitions) -/

/-- A sample gateway configuration (the default values of `EnsureDefaults`
for the channel names). -/
def cfg0 : Config :=
  { advertisedName := "irc.example.com".toList, botNick := "Xyzzy".toList,
    botUsername := "xyzzy".toList, botHostname := "localhost".toList,
    globalChannel := "#global".toList, gameChannelPfx := "#game-".toList,
    spectateGameChannelPfx := "#watch-".toList,
    pyxBaseAddress := "http://pyx.example".toList }

def gameInfo0 : GameInfo :=
  { Id := 0, Host := [], Players := [], Spectators := [], State := .LOBBY,
    HasPassword := false,
    GameOptions := { PlayerLimit := 0, SpectatorLimit := 0, ScoreLimit := 0 },
    Created := 0 }

def ajax0 : AjaxResponse :=
  { ErrorCode := .OTHER [], GameInfo := gameInfo0, PlayerInfo := [], Names := [],
    Games := [], Nickname := [], Sigil := [], IdCode := [], ClientName := [],
    IpAddress := [], GameId := none, Idle := 0, ConnectedAt := 0 }

def sess0 : PyxSession :=
  { userName := "alice".toList, userSigil := [], userIdCode := [],
    serverStarted := 0, globalChatEnabled := true, broadcastingUsers := false }

/-- A backend oracle on which every call succeeds. -/
def bkOk : Backend :=
  { login := fun _ _ => .ok sess0,
    names := .ok ["alice".toList],
    gameList := .ok [],
    gameInfo := fun _ => { resp := ajax0, err := none },
    whois := fun _ => { resp := ajax0, err := none },
    sendGlobalChat := fun _ _ => none,
    sendGameChat := fun _ _ _ => none,
    spectateGame := fun _ _ => { resp := ajax0, err := none },
    leaveGame := fun _ => { resp := ajax0, err := none } }

/-- A backend whose `LeaveGame` fails with INVALID_GAME. -/
def bkLeaveInvalid : Backend :=
  { bkOk with leaveGame := fun _ =>
      { resp := { ajax0 with ErrorCode := .INVALID_GAME },
        err := some "PYX error: Invalid game specified.".toList } }

/-- A backend whose `SpectateGame` fails with GAME_FULL. -/
def bkSpectateFull : Backend :=
  { bkOk with spectateGame := fun _ _ =>
      { resp := { ajax0 with ErrorCode := .GAME_FULL },
        err := some "PYX error: That game is full. Join another.".toList } }

/-- A registered session that is in no game. -/
def st0 : ClientState :=
  { addr := "127.0.0.1".toList, registered := true, password := [],
    nick := "alice".toList, hasUser := true, userName := "alice".toList,
    userSigil := [], userIdCode := [], serverStarted := 0,
    globalChatEnabled := true, broadcastingUsers := false, gameId := none,
    gameIsSpectate := false, gameHost := [], gameInProgress := false,
    gamePlayedCards := none, closed := false }

/-- A registered session spectating game 7. -/
def stInGame7 : ClientState := { st0 with gameId := some 7, gameIsSpectate := true }

/-- A chat event from another user tagged with game 1. -/
def evGame1 : Event :=
  { Event := "chat".toList, From := "bob".toList, Message := "hi".toList,
    Wall := false, Emote := false, GameId := some 1, Nickname := [], Sigil := [],
    IdCode := [], GameState := .LOBBY,
    BlackCard := { Pick := 0, Text := [], Watermark := [] }, WhiteCards := [],
    WinningCard := 0, RoundWinner := [] }

def card1 : WhiteCardData := { Id := 10, Text := "first".toList, Watermark := "W1".toList }

def card2 : WhiteCardData := { Id := 20, Text := "second".toList, Watermark := "W2".toList }

def card3 : WhiteCardData := { Id := 21, Text := "third".toList, Watermark := "W2".toList }

/-- The spectating session after a Judging state change cached two played
groupings. -/
def stJudged : ClientState :=
  { stInGame7 with gamePlayedCards := some [[card1], [card2, card3]] }

/-- A round-complete event whose winning card id is the first card of the
second cached grouping. -/
def evRound : Event :=
  { evGame1 with GameId := some 7, WinningCard := 20, RoundWinner := "bob".toList }

/-! ## Decimal round-trip lemmas -/

theorem digitVal_digitChar (k : Nat) (hk : k < 10) :
    digitVal (digitChar k) = some k := by
  interval_cases k <;> decide

theorem natToDigitsFuel_congr (n : Nat) : ∀ f1 f2, n ≤ f1 → n ≤ f2 →
    natToDigitsFuel f1 n = natToDigitsFuel f2 n := by
  induction n using Nat.strong_induction_on with
  | _ n ih =>
    intro f1 f2 h1 h2
    match f1, f2 with
    | 0, 0 => rfl
    | 0, f2 + 1 =>
      have hn : n = 0 := by omega
      subst hn
      simp [natToDigitsFuel]
    | f1 + 1, 0 =>
      have hn : n = 0 := by omega
      subst hn
      simp [natToDigitsFuel]
    | f1 + 1, f2 + 1 =>
      by_cases hlt : n < 10
      · simp [natToDigitsFuel, hlt]
      · simp only [natToDigitsFuel, if_neg hlt]
        congr 1
        exact ih (n / 10) (Nat.div_lt_self (by omega) (by omega)) f1 f2
          (by omega) (by omega)

/-- The recursion equation of the Go digit loop. -/
theorem natToDigits_eq (n : Nat) : natToDigits n =
    if n < 10 then [digitChar n]
    else natToDigits (n / 10) ++ [digitChar (n % 10)] := by
  by_cases hlt : n < 10
  · rw [if_pos hlt]
    match n, hlt with
    | 0, _ => rfl
    | m + 1, hlt => simp [natToDigits, natToDigitsFuel, hlt]
  · rw [if_neg hlt]
    obtain ⟨m, rfl⟩ : ∃ m, n = m + 1 := ⟨n - 1, by omega⟩
    show natToDigitsFuel (m + 1) (m + 1) = _
    simp only [natToDigitsFuel, if_neg hlt]
    congr 1
    exact natToDigitsFuel_congr _ _ _ (by omega) (by omega)

theorem natToDigits_ne_nil (n : Nat) : natToDigits n ≠ [] := by
  rw [natToDigits_eq]
  split
  · simp
  · simp

theorem natToDigits_head_digit (n : Nat) :
    ∃ k t, k < 10 ∧ natToDigits n = digitChar k :: t := by
  induction n using Nat.strong_induction_on with
  | _ n ih =>
    rw [natToDigits_eq]
    split
    · exact ⟨n, [], by omega, rfl⟩
    · rename_i h
      obtain ⟨k, t, hk, ht⟩ := ih (n / 10) (Nat.div_lt_self (by omega) (by omega))
      exact ⟨k, t ++ [digitChar (n % 10)], hk, by rw [ht]; rfl⟩

theorem parseDigitsAux_singleton (a k : Nat) (hk : k < 10) :
    parseDigitsAux a [digitChar k] = some (a * 10 + k) := by
  simp [parseDigitsAux, digitVal_digitChar k hk]

theorem parseDigitsAux_append (acc : Nat) (xs ys : Str) :
    parseDigitsAux acc (xs ++ ys) =
      match parseDigitsAux acc xs with
      | some a => parseDigitsAux a ys
      | none => none := by
  induction xs generalizing acc with
  | nil => simp [parseDigitsAux]
  | cons c cs ih =>
    simp only [List.cons_append, parseDigitsAux]
    cases digitVal c <;> simp [ih]

theorem parseDigitsAux_natToDigits (n : Nat) :
    ∀ acc, parseDigitsAux acc (natToDigits n) =
      some (acc * 10 ^ (natToDigits n).length + n) := by
  induction n using Nat.strong_induction_on with
  | _ n ih =>
    intro acc
    rw [natToDigits_eq]
    split
    · rename_i h
      simp [parseDigitsAux, digitVal_digitChar n h]
    · rename_i h
      have hd : n / 10 < n := Nat.div_lt_self (by omega) (by omega)
      rw [parseDigitsAux_append, ih (n / 10) hd acc]
      show parseDigitsAux (acc * 10 ^ (natToDigits (n / 10)).length + n / 10)
          [digitChar (n % 10)] = _
      rw [parseDigitsAux_singleton _ (n % 10) (by omega)]
      have hlen : (natToDigits (n / 10) ++ [digitChar (n % 10)]).length =
          (natToDigits (n / 10)).length + 1 := by simp
      rw [hlen]
      congr 1
      have hmod := Nat.div_add_mod n 10
      rw [pow_succ]
      calc (acc * 10 ^ (natToDigits (n / 10)).length + n / 10) * 10 + n % 10
          = acc * (10 ^ (natToDigits (n / 10)).length * 10) +
              (10 * (n / 10) + n % 10) := by ring
        _ = acc * (10 ^ (natToDigits (n / 10)).length * 10) + n := by rw [hmod]

theorem parseDigits_natToDigits (n : Nat) : parseDigits (natToDigits n) = some n := by
  obtain ⟨k, t, _, ht⟩ := natToDigits_head_digit n
  rw [ht]
  show parseDigitsAux 0 (digitChar k :: t) = some n
  rw [← ht, parseDigitsAux_natToDigits]
  simp

theorem digitChar_ne_minus (k : Nat) (hk : k < 10) : digitChar k ≠ '-' := by
  interval_cases k <;> decide

theorem digitChar_ne_plus (k : Nat) (hk : k < 10) : digitChar k ≠ '+' := by
  interval_cases k <;> decide

theorem Atoi_neg_cons (t : Str) :
    Atoi ('-' :: t) = (parseDigits t).map (fun n => -(n : Int)) := by
  simp [Atoi]

theorem Atoi_cons_of_unsigned (c : Char) (t : Str) (hm : c ≠ '-') (hp : c ≠ '+') :
    Atoi (c :: t) = (parseDigits (c :: t)).map (fun n => (n : Int)) := by
  simp [Atoi, hm, hp]

/-- `strconv.Atoi` inverts `strconv.Itoa` on every integer. -/
theorem Atoi_Itoa (g : Int) : Atoi (Itoa g) = some g := by
  by_cases hg : g < 0
  · have h1 : Itoa g = '-' :: natToDigits (-g).toNat := by simp [Itoa, hg]
    have htn : ((-g).toNat : Int) = -g := Int.toNat_of_nonneg (by omega)
    rw [h1, Atoi_neg_cons, parseDigits_natToDigits]
    simp [htn]
  · have h1 : Itoa g = natToDigits g.toNat := by simp [Itoa, hg]
    obtain ⟨k, t, hk, ht⟩ := natToDigits_head_digit g.toNat
    have htn : (g.toNat : Int) = g := Int.toNat_of_nonneg (by omega)
    rw [h1, ht, Atoi_cons_of_unsigned _ _ (digitChar_ne_minus k hk)
      (digitChar_ne_plus k hk), ← ht, parseDigits_natToDigits]
    simp [htn]

/-! ## C9: the emote envelope round-trips -/

/-- C9: for every string `s`, `isEmote (makeEmote s)` detects the envelope
and strips it back to exactly `s`: wrapping with `makeEmote` and unwrapping
with `isEmote` is an exact round trip. -/
theorem isEmote_makeEmote (s : Str) : isEmote (makeEmote s) = some (true, s) := by
  have hshape : makeEmote s = CtcpMagic :: ("ACTION ".toList ++ s ++ [CtcpMagic]) := by
    simp [makeEmote]
  rw [hshape, isEmote]
  have hlast : (CtcpMagic :: ("ACTION ".toList ++ s ++ [CtcpMagic])).getLast? =
      some CtcpMagic := by
    rw [show CtcpMagic :: ("ACTION ".toList ++ s ++ [CtcpMagic]) =
      (CtcpMagic :: ("ACTION ".toList ++ s)) ++ [CtcpMagic] by simp]
    exact List.getLast?_concat _
  have hlen : (CtcpMagic :: ("ACTION ".toList ++ s ++ [CtcpMagic])).length =
      s.length + 9 := by
    simp
  rw [if_pos]
  · congr 1
    congr 1
    rw [hlen]
    show (("ACTION ".toList ++ s ++ [CtcpMagic]).drop 7).take (s.length + 9 - 1 - 8) = s
    have hdrop : ("ACTION ".toList ++ s ++ [CtcpMagic]).drop 7 = s ++ [CtcpMagic] := by
      rw [List.append_assoc]
      rw [show (7 : Nat) = ("ACTION ".toList).length from rfl]
      exact List.drop_left _ _
    rw [hdrop]
    have h9 : s.length + 9 - 1 - 8 = s.length := by omega
    rw [h9]
    exact List.take_left s [CtcpMagic]
  · refine ⟨rfl, hlast, ?_, ?_⟩
    · rw [hlen]
      simp
    · simp

/-! ## C10: channel-name synthesis and parsing are mutually inverse -/

/-- C10: for a session holding membership `(g, b)` with `g ≥ 0`, provided
neither configured channel prefix is a prefix of the other's synthesized
channel name for `g`, parsing the synthesized channel name recovers exactly
`(g, b)` with no error. -/
theorem getGameFromChannel_getGameChannel (cfg : Config) (st : ClientState)
    (g : Int) (b : Bool) (hg : st.gameId = some g) (hb : st.gameIsSpectate = b)
    (hge : 0 ≤ g)
    (h1 : ¬ cfg.gameChannelPfx.isPrefixOf (cfg.spectateGameChannelPfx ++ Itoa g))
    (h2 : ¬ cfg.spectateGameChannelPfx.isPrefixOf (cfg.gameChannelPfx ++ Itoa g)) :
    getGameFromChannel cfg (getGameChannel cfg st) = some (g, b) := by
  cases b with
  | false =>
    have hchan : getGameChannel cfg st = cfg.gameChannelPfx ++ Itoa g := by
      simp [getGameChannel, hg, hb]
    rw [hchan, getGameFromChannel, if_pos]
    · rw [List.drop_left, Atoi_Itoa]
    · rw [List.isPrefixOf_iff_prefix]
      exact List.prefix_append _ _
  | true =>
    have hchan : getGameChannel cfg st = cfg.spectateGameChannelPfx ++ Itoa g := by
      simp [getGameChannel, hg, hb]
    rw [hchan, getGameFromChannel, if_neg h1, if_pos]
    · rw [List.drop_left, Atoi_Itoa]
    · rw [List.isPrefixOf_iff_prefix]
      exact List.prefix_append _ _

/-- Witness for C10 at a concrete configuration and membership. -/
theorem getGameFromChannel_getGameChannel_witness :
    getGameFromChannel
      { advertisedName := "irc.example.com".toList, botNick := "Xyzzy".toList,
        botUsername := "xyzzy".toList, botHostname := "localhost".toList,
        globalChannel := "#global".toList, gameChannelPfx := "#game-".toList,
        spectateGameChannelPfx := "#watch-".toList,
        pyxBaseAddress := "http://pyx.example".toList }
      (getGameChannel
        { advertisedName := "irc.example.com".toList, botNick := "Xyzzy".toList,
          botUsername := "xyzzy".toList, botHostname := "localhost".toList,
          globalChannel := "#global".toList, gameChannelPfx := "#game-".toList,
          spectateGameChannelPfx := "#watch-".toList,
          pyxBaseAddress := "http://pyx.example".toList }
        { addr := [], registered := true, password := [], nick := "alice".toList,
          hasUser := true, userName := "alice".toList, userSigil := [],
          userIdCode := [], serverStarted := 0, globalChatEnabled := true,
          broadcastingUsers := false, gameId := some 42, gameIsSpectate := true,
          gameHost := [], gameInProgress := false, gamePlayedCards := none,
          closed := false }) = some (42, true) :=
  getGameFromChannel_getGameChannel _ _ 42 true rfl rfl (by decide)
    (by decide) (by decide)

/-! ## C6: joinIntoLines line lengths -/

/-- C6 counterexample: on the very inputs of `joinLineTests` row seven
(pieces `a b c`, budget 4, joiner `", "`), `joinIntoLines` returns without
panicking a first line `"a, b,"` of length 5 — exceeding the budget of 4.
The claim that every returned string has length at most `charsPerLine` is
therefore false: a continued line additionally carries the space-trimmed
joiner appended after the budget check. -/
theorem joinIntoLines_counterexample :
    joinIntoLines 4 ["a".toList, "b".toList, "c".toList] ", ".toList =
      some ["a, b,".toList, "c".toList] ∧
    ("a, b,".toList).length = 5 := by decide

theorem joinIntoLinesGo_bound (charsPerLine : Nat) (joiner tj : Str)
    (pieces : List Str) :
    ∀ ret cur res, (∀ l ∈ ret, l.length ≤ charsPerLine + tj.length) →
    cur.length ≤ charsPerLine →
    joinIntoLinesGo charsPerLine joiner tj ret cur pieces = some res →
    ∀ l ∈ res, l.length ≤ charsPerLine + tj.length := by
  induction pieces with
  | nil =>
    intro ret cur res hret hcur h l hl
    simp only [joinIntoLinesGo] at h
    cases h
    rcases List.mem_append.1 hl with hmem | hmem
    · exact hret l hmem
    · simp only [List.mem_singleton] at hmem
      subst hmem
      omega
  | cons val rest ih =>
    intro ret cur res hret hcur h l hl
    simp only [joinIntoLinesGo] at h
    split at h
    · exact absurd h (by simp)
    · rename_i hfit
      split at h
      · refine ih ret val res hret ?_ h l hl
        omega
      · split at h
        · refine ih (ret ++ [cur ++ tj]) val res ?_ (by omega) h l hl
          intro l2 hl2
          rcases List.mem_append.1 hl2 with hmem | hmem
          · exact hret l2 hmem
          · simp only [List.mem_singleton] at hmem
            subst hmem
            simp only [List.length_append]
            omega
        · rename_i hover
          refine ih ret (cur ++ joiner ++ val) res hret ?_ h l hl
          simp only [List.length_append] at hover ⊢
          omega

/-- C6 amended: for every piece list, budget and joiner on which
`joinIntoLines` does not panic, every returned string has length at most
`charsPerLine` plus the length of the space-trimmed joiner (the bound the
claim states, corrected by the trailing trimmed joiner that continued lines
carry; with a whitespace-only joiner the claimed bound itself holds). -/
theorem joinIntoLines_line_bound (charsPerLine : Nat) (pieces : List Str)
    (joiner : Str) (res : List Str)
    (h : joinIntoLines charsPerLine pieces joiner = some res) :
    ∀ l ∈ res, l.length ≤ charsPerLine + (goTrimSpace joiner).length :=
  joinIntoLinesGo_bound charsPerLine joiner (goTrimSpace joiner) pieces [] [] res
    (by simp) (by simp) h

/-- Witness for the amended C6 bound on the counterexample's own inputs:
the overlong first line obeys the corrected bound `4 + 1`. -/
theorem joinIntoLines_line_bound_witness :
    ("a, b,".toList).length ≤ 4 + (goTrimSpace ", ".toList).length :=
  joinIntoLines_line_bound 4 ["a".toList, "b".toList, "c".toList] ", ".toList
    ["a, b,".toList, "c".toList] (by decide) ("a, b,".toList) (by decide)

/-! ## C8: request serials -/

/-- C8 counterexample: the long-poll request posted by the gateway client's
`receive` loop carries no form data at all — in particular no serial field —
so the claim that every outgoing call including each long poll carries the
per-session serial is false already for the session's very first poll. -/
theorem longPoll_carries_no_serial :
    runCalls 0 [PyxCall.poll] = [longPollReq] ∧
    longPollReq.formData.lookup AjaxRequest_SERIAL = none := by decide

theorem lookup_mapSet_self (m : List (Str × Str)) (k v : Str) :
    (mapSet m k v).lookup k = some v := by
  simp [mapSet, List.lookup]

theorem carriedSerials_runCalls (calls : List PyxCall) :
    ∀ s : Int, (∀ x ∈ carriedSerials (runCalls s calls), s ≤ x) ∧
      List.Chain' (· < ·) (carriedSerials (runCalls s calls)) := by
  induction calls with
  | nil => intro s; simp [runCalls, carriedSerials]
  | cons c rest ih =>
    intro s
    cases c with
    | poll =>
      have hskip : carriedSerials (runCalls s (PyxCall.poll :: rest)) =
          carriedSerials (runCalls s rest) := by
        simp [runCalls, carriedSerials, longPollReq, List.lookup]
      rw [hskip]
      exact ih s
    | ajax req =>
      have hhead : carriedSerials (runCalls s (PyxCall.ajax req :: rest)) =
          s :: carriedSerials (runCalls (s + 1) rest) := by
        simp only [runCalls, carriedSerials, List.filterMap_cons, sendNoErrorCheckReq,
          lookup_mapSet_self, Option.some_bind, Atoi_Itoa]
      rw [hhead]
      obtain ⟨hmem, hchain⟩ := ih (s + 1)
      refine ⟨?_, ?_⟩
      · intro x hx
        rcases List.mem_cons.1 hx with hx | hx
        · omega
        · have := hmem x hx
          omega
      · refine List.chain'_cons'.2 ⟨?_, hchain⟩
        intro y hy
        have := hmem y (List.mem_of_mem_head? hy)
        omega

/-- C8 amended: every AjaxServlet operation call carries the per-session
serial, the serial values carried by successive calls are strictly
increasing, and — contrary to the claim — the long-poll requests carry no
serial at all. -/
theorem runCalls_serials (s : Int) (calls : List PyxCall) :
    (∀ r ∈ runCalls s calls, r.path = "/AjaxServlet".toList →
      (r.formData.lookup AjaxRequest_SERIAL).isSome = true) ∧
    (∀ r ∈ runCalls s calls, r.path = "/LongPollServlet".toList →
      r.formData.lookup AjaxRequest_SERIAL = none) ∧
    List.Chain' (· < ·) (carriedSerials (runCalls s calls)) := by
  refine ⟨?_, ?_, (carriedSerials_runCalls calls s).2⟩
  · induction calls generalizing s with
    | nil => simp [runCalls]
    | cons c rest ih =>
      intro r hr hpath
      cases c with
      | poll =>
        rcases List.mem_cons.1 hr with hr | hr
        · subst hr
          exact absurd hpath (by decide)
        · exact ih s r hr hpath
      | ajax req =>
        rcases List.mem_cons.1 hr with hr | hr
        · subst hr
          simp [sendNoErrorCheckReq, lookup_mapSet_self]
        · exact ih (s + 1) r hr hpath
  · induction calls generalizing s with
    | nil => simp [runCalls]
    | cons c rest ih =>
      intro r hr hpath
      cases c with
      | poll =>
        rcases List.mem_cons.1 hr with hr | hr
        · subst hr
          rfl
        · exact ih s r hr hpath
      | ajax req =>
        rcases List.mem_cons.1 hr with hr | hr
        · subst hr
          simp [sendNoErrorCheckReq] at hpath
        · exact ih (s + 1) r hr hpath

/-- Witness for the amended C8 on a concrete call sequence: the first
AjaxServlet request of a fresh session carries a serial field. -/
theorem runCalls_serials_witness :
    (((sendNoErrorCheckReq 0 []).1).formData.lookup AjaxRequest_SERIAL).isSome = true :=
  (runCalls_serials 0 [PyxCall.ajax [], PyxCall.poll]).1
    (sendNoErrorCheckReq 0 []).1 (by decide) (by decide)

/-! ## C7: the wire message parser -/

theorem goSplitFirst_fst (cs : Str) (sep : Char) :
    (goSplitFirst cs sep).1 = cs.takeWhile (fun c => !(c == sep)) := by
  induction cs with
  | nil => rfl
  | cons c cs ih =>
    by_cases hc : c = sep
    · subst hc
      simp [goSplitFirst, List.takeWhile_cons]
    · simp [goSplitFirst, hc, List.takeWhile_cons, ih]

theorem goSplitFirst_snd_of_contains (cs : Str) (sep : Char)
    (h : cs.contains sep = true) :
    (goSplitFirst cs sep).2 = some ((cs.dropWhile (fun c => !(c == sep))).tail) := by
  induction cs with
  | nil => simp at h
  | cons c cs ih =>
    by_cases hc : c = sep
    · subst hc
      simp [goSplitFirst, List.dropWhile_cons]
    · have h2 : cs.contains sep = true := by
        simp only [List.contains_cons, Bool.or_eq_true, beq_iff_eq] at h
        rcases h with h | h
        · exact absurd h.symm hc
        · exact h
      simp [goSplitFirst, hc, List.dropWhile_cons, ih h2]

/-- C7 counterexample: on the line `"a:b c"`, whose first whitespace-delimited
token `"a:b"` contains the trailing-argument marker, the parsed command is
`"A"` — the upper-cased text before the first `':'` — not the upper-cased
first whitespace-delimited token `"A:B"` that the claim requires. -/
theorem NewMessage_counterexample :
    (NewMessage "a:b c".toList).cmd = "A".toList ∧
    goToUpper ((goSplitWs (goTrimSpace "a:b c".toList)).headD []) = "A:B".toList := by
  decide

/-- C7 amended: upper-casing and whitespace-splitting behave as claimed,
except that with a `':'` present the command token is taken from the trimmed
text before the first `':'` (not from the whole line): without the marker the
command is the upper-cased first whitespace piece of the trimmed line and the
arguments are the remaining pieces; with the marker the trimmed text before
the first `':'` is whitespace-split the same way and everything after the
first `':'` is appended verbatim as the one final argument; the empty line
parses to the empty command with no arguments. -/
theorem NewMessage_spec (input : Str) :
    ((goTrimSpace input).contains ':' = false →
      (NewMessage input).cmd = goToUpper ((goSplitWs (goTrimSpace input)).headD []) ∧
      (NewMessage input).args = (goSplitWs (goTrimSpace input)).drop 1) ∧
    ((goTrimSpace input).contains ':' = true →
      (NewMessage input).cmd =
        goToUpper ((goSplitWs (goTrimSpace
          ((goTrimSpace input).takeWhile (fun c => !(c == ':'))))).headD []) ∧
      (NewMessage input).args =
        (goSplitWs (goTrimSpace
          ((goTrimSpace input).takeWhile (fun c => !(c == ':'))))).drop 1 ++
        [((goTrimSpace input).dropWhile (fun c => !(c == ':'))).tail]) ∧
    (input = [] → (NewMessage input).cmd = [] ∧ (NewMessage input).args = []) := by
  refine ⟨?_, ?_, ?_⟩
  · intro h
    rw [NewMessage]
    simp only [h]
    exact ⟨rfl, rfl⟩
  · intro h
    rw [NewMessage]
    simp only [h, if_true]
    rw [goSplitFirst_fst, goSplitFirst_snd_of_contains _ _ h]
    exact ⟨rfl, rfl⟩
  · intro h
    subst h
    decide

/-- Witness for the amended C7 on the parser test's own example line. -/
theorem NewMessage_spec_witness :
    (NewMessage "privmsg #test :testing 1 2 3".toList).cmd = "PRIVMSG".toList ∧
    (NewMessage "privmsg #test :testing 1 2 3".toList).args =
      ["#test".toList, "testing 1 2 3".toList] := by
  have h := (NewMessage_spec "privmsg #test :testing 1 2 3".toList).2.1 (by decide)
  refine ⟨?_, ?_⟩
  · rw [h.1]
    decide
  · rw [h.2]
    decide

/-! ## C1: PART desync healing -/

/-- C1: when a registered session in game `g` issues PART for its game
channel and the backend `LeaveGame` call fails, an error code of
NOT_IN_THAT_GAME or INVALID_GAME still clears the local membership and
enqueues a successful PART line (the designed desync-healing path), while
every other error code produces the ErrServiceConfused reply and leaves the
membership in place. -/
theorem handlePart_desync (cfg : Config) (bk : Backend) (st : ClientState)
    (msg : Message) (g : Int) (sp : Bool) (ch : Str) (rest : List Str) (m : Str)
    (hargs : msg.args = ch :: rest) (hch : ch ≠ cfg.globalChannel)
    (hparse : getGameFromChannel cfg ch = some (g, sp))
    (hmem : st.gameId = some g)
    (herr : (bk.leaveGame g).err = some m) :
    (((bk.leaveGame g).resp.ErrorCode = ErrorCode.NOT_IN_THAT_GAME ∨
      (bk.leaveGame g).resp.ErrorCode = ErrorCode.INVALID_GAME) →
      handlePart cfg bk st msg =
        some ({ st with gameId := none },
          [':' :: getNickUserAtHost cfg st.nick ++ " PART ".toList ++ ch])) ∧
    (((bk.leaveGame g).resp.ErrorCode ≠ ErrorCode.NOT_IN_THAT_GAME ∧
      (bk.leaveGame g).resp.ErrorCode ≠ ErrorCode.INVALID_GAME) →
      handlePart cfg bk st msg =
        some (st, [fmtNum cfg ErrServiceConfused st.nick
          (ch ++ " :Unable to leave channel: ".toList ++ m)])) := by
  constructor
  · rintro (hcode | hcode) <;>
      simp [handlePart, hargs, hch, hparse, hmem, herr, hcode]
  · rintro ⟨h1, h2⟩
    simp [handlePart, hargs, hch, hparse, hmem, herr, h1, h2]

/-! ## C5: JOIN error mapping for spectate channels -/

/-- C5: a registered session with no game membership joining a spectate
channel receives, when the backend `SpectateGame` call fails, exactly the
protocol error the backend code determines — CANNOT_JOIN_ANOTHER_GAME maps
to 405 ErrTooManyChannels, GAME_FULL to 471 ErrChannelIsFull, INVALID_GAME
to 403 ErrNoSuchChannel, WRONG_PASSWORD to 475 ErrBadChannelKey, and every
other code to ErrServiceConfused carrying the backend error message — and in
every failure case the session state (membership unset) is unchanged. -/
theorem handleJoin_error_mapping (cfg : Config) (bk : Backend) (st : ClientState)
    (msg : Message) (gid : Int) (ch : Str) (rest : List Str) (m : Str)
    (hargs : msg.args = ch :: rest) (hmem : st.gameId = none)
    (hparse : getGameFromChannel cfg ch = some (gid, true))
    (herr : (bk.spectateGame gid (rest.headD [])).err = some m) :
    ((bk.spectateGame gid (rest.headD [])).resp.ErrorCode =
        ErrorCode.CANNOT_JOIN_ANOTHER_GAME →
      handleJoin cfg bk st msg = some (st, [fmtNum cfg ErrTooManyChannels st.nick
        (ch ++ " :Too many joined channels".toList)])) ∧
    ((bk.spectateGame gid (rest.headD [])).resp.ErrorCode = ErrorCode.GAME_FULL →
      handleJoin cfg bk st msg = some (st, [fmtNum cfg ErrChannelIsFull st.nick
        (ch ++ " :Channel is full".toList)])) ∧
    ((bk.spectateGame gid (rest.headD [])).resp.ErrorCode = ErrorCode.INVALID_GAME →
      handleJoin cfg bk st msg = some (st, [fmtNum cfg ErrNoSuchChannel st.nick
        (ch ++ " :No such channel".toList)])) ∧
    ((bk.spectateGame gid (rest.headD [])).resp.ErrorCode = ErrorCode.WRONG_PASSWORD →
      handleJoin cfg bk st msg = some (st, [fmtNum cfg ErrBadChannelKey st.nick
        (ch ++ " :Wrong key".toList)])) ∧
    (((bk.spectateGame gid (rest.headD [])).resp.ErrorCode ≠
        ErrorCode.CANNOT_JOIN_ANOTHER_GAME ∧
      (bk.spectateGame gid (rest.headD [])).resp.ErrorCode ≠ ErrorCode.GAME_FULL ∧
      (bk.spectateGame gid (rest.headD [])).resp.ErrorCode ≠ ErrorCode.INVALID_GAME ∧
      (bk.spectateGame gid (rest.headD [])).resp.ErrorCode ≠ ErrorCode.WRONG_PASSWORD) →
      handleJoin cfg bk st msg = some (st, [fmtNum cfg ErrServiceConfused st.nick
        (ch ++ " :Cannot join game: ".toList ++ m)])) := by
  refine ⟨?_, ?_, ?_, ?_, ?_⟩
  · intro hcode
    cases rest with
    | nil => simp_all [handleJoin]
    | cons k kr => simp_all [handleJoin]
  · intro hcode
    cases rest with
    | nil => simp_all [handleJoin]
    | cons k kr => simp_all [handleJoin]
  · intro hcode
    cases rest with
    | nil => simp_all [handleJoin]
    | cons k kr => simp_all [handleJoin]
  · intro hcode
    cases rest with
    | nil => simp_all [handleJoin]
    | cons k kr => simp_all [handleJoin]
  · rintro ⟨h1, h2, h3, h4⟩
    cases hcode : (bk.spectateGame gid (rest.headD [])).resp.ErrorCode with
    | NOT_IN_THAT_GAME =>
      cases rest with
      | nil => simp_all [handleJoin]
      | cons k kr => simp_all [handleJoin]
    | INVALID_GAME => exact absurd hcode h3
    | CANNOT_JOIN_ANOTHER_GAME => exact absurd hcode h1
    | GAME_FULL => exact absurd hcode h2
    | WRONG_PASSWORD => exact absurd hcode h4
    | NO_SUCH_USER =>
      cases rest with
      | nil => simp_all [handleJoin]
      | cons k kr => simp_all [handleJoin]
    | OTHER c =>
      cases rest with
      | nil => simp_all [handleJoin]
      | cons k kr => simp_all [handleJoin]

/-- Witness for C1: a concrete PART of the joined spectate channel while the
backend reports INVALID_GAME still clears the membership and emits the PART
line. -/
theorem handlePart_desync_witness :
    handlePart cfg0 bkLeaveInvalid stInGame7
      { cmd := "PART".toList, args := ["#watch-7".toList], orig := [] } =
      some ({ stInGame7 with gameId := none },
        [':' :: getNickUserAtHost cfg0 stInGame7.nick ++ " PART ".toList ++
          "#watch-7".toList]) :=
  (handlePart_desync cfg0 bkLeaveInvalid stInGame7 _ 7 true "#watch-7".toList []
    "PYX error: Invalid game specified.".toList rfl (by decide) (by decide) rfl
    rfl).1 (Or.inr rfl)

/-- Witness for C5: a concrete spectate JOIN refused as GAME_FULL yields the
471 channel-is-full reply and an unchanged session. -/
theorem handleJoin_error_mapping_witness :
    handleJoin cfg0 bkSpectateFull st0
      { cmd := "JOIN".toList, args := ["#watch-7".toList], orig := [] } =
      some (st0, [fmtNum cfg0 ErrChannelIsFull st0.nick
        ("#watch-7".toList ++ " :Channel is full".toList)]) :=
  (handleJoin_error_mapping cfg0 bkSpectateFull st0 _ 7 "#watch-7".toList []
    "PYX error: That game is full. Join another.".toList rfl rfl (by decide)
    rfl).2.1 rfl

/-! ## C3: cross-game chat events -/

/-- C3 counterexample: a non-wall chat event from another user tagged with a
game id, arriving while the session holds no game membership at all, makes
`eventChat` dereference the nil `client.gameId` and panic (modelled `none`)
instead of logging the mismatch and dropping the event: the dispatch loop's
deferred recover then ends event processing for the session.  The claim's
"including the case where the session holds no game membership at all" is
therefore false — only the mismatch between two present ids is
log-and-drop. -/
theorem eventChat_nil_membership_counterexample :
    eventChat cfg0 st0 evGame1 = none := by decide

/-- C3 amended: a non-wall chat event from another sender tagged with a game
id different from the session's current membership is dropped with no
outbound line when the session holds some membership; when the session holds
no membership at all the handler instead hits the nil dereference (no line
is enqueued either, but event processing aborts rather than logging and
dropping). -/
theorem eventChat_mismatch (cfg : Config) (st : ClientState) (ev : Event) (g : Int)
    (hfrom : ev.From ≠ st.userName) (hwall : ev.Wall = false)
    (hgid : ev.GameId = some g) :
    (∀ myId, st.gameId = some myId → g ≠ myId → eventChat cfg st ev = some (st, [])) ∧
    (st.gameId = none → eventChat cfg st ev = none) := by
  constructor
  · intro myId hmem hne
    simp [eventChat, hfrom, hwall, hgid, hmem, hne]
  · intro hmem
    simp [eventChat, hfrom, hwall, hgid, hmem]

/-- Witness for the amended C3: the same mismatched event is dropped without
output once the session does hold a (different) membership. -/
theorem eventChat_mismatch_witness :
    eventChat cfg0 stInGame7 evGame1 = some (stInGame7, []) :=
  (eventChat_mismatch cfg0 stInGame7 evGame1 1 (by decide) rfl rfl).1 7 rfl
    (by decide)

/-! ## C2: round-complete winning-grouping resolution -/

theorem findWinningRender_first_match (w : Int) :
    ∀ (pre : List (List WhiteCardData)) (g : List WhiteCardData)
      (post : List (List WhiteCardData)) (c : WhiteCardData)
      (ct : List WhiteCardData),
    g = c :: ct → c.Id = w →
    (∀ g' ∈ pre, ∃ c' t', g' = c' :: t' ∧ c'.Id ≠ w) →
    findWinningRender (pre ++ g :: post) w = some (renderGroup g) := by
  intro pre
  induction pre with
  | nil =>
    intro g post c ct hg hc _
    subst hg
    simp [findWinningRender, hc]
  | cons p ps ih =>
    intro g post c ct hg hc hpre
    obtain ⟨c', t', hp, hne⟩ := hpre p (by simp)
    subst hp
    simp only [List.cons_append, findWinningRender]
    rw [if_neg hne]
    exact ih g post c ct hg hc (fun g' hg' => hpre g' (by simp [hg']))

/-- C2: when the judging-phase cache holds groupings `pre ++ g :: post`, the
first card of `g` carries the event's winning id, and no grouping of `pre`
does, the first line `eventGameRoundComplete` announces is exactly the
winner text rendering `g`'s cards in their stored order — never another
grouping's. -/
theorem eventGameRoundComplete_winner (cfg : Config) (bk : Backend)
    (st : ClientState) (ev : Event) (pre : List (List WhiteCardData))
    (g : List WhiteCardData) (post : List (List WhiteCardData))
    (c : WhiteCardData) (ct : List WhiteCardData)
    (hcache : st.gamePlayedCards = some (pre ++ g :: post))
    (hg : g = c :: ct) (hc : c.Id = ev.WinningCard)
    (hpre : ∀ g' ∈ pre, ∃ c' t', g' = c' :: t' ∧ c'.Id ≠ ev.WinningCard) :
    (eventGameRoundComplete cfg bk st ev).1.head? =
      some (sendBotMessageToGame cfg st
        ("The round was won by ".toList ++ ev.RoundWinner ++ " by playing".toList ++
          renderGroup g ++ ".".toList)) := by
  have hfind := findWinningRender_first_match ev.WinningCard pre g post c ct hg hc hpre
  simp only [eventGameRoundComplete, hcache, hfind]
  cases showScoreboard cfg bk st <;> simp

/-- Witness for C2 on a concrete two-grouping cache: the winning id 20
matches the first card of the second grouping, whose two cards are rendered
in order. -/
theorem eventGameRoundComplete_winner_witness :
    (eventGameRoundComplete cfg0 bkOk stJudged evRound).1.head? =
      some (sendBotMessageToGame cfg0 stJudged
        ("The round was won by ".toList ++ evRound.RoundWinner ++
          " by playing".toList ++ renderGroup [card2, card3] ++ ".".toList)) :=
  eventGameRoundComplete_winner cfg0 bkOk stJudged evRound [[card1]] [card2, card3]
    [] card2 [card3] rfl rfl (by decide)
    (by
      intro g' hg'
      simp only [List.mem_singleton] at hg'
      subst hg'
      exact ⟨card1, [], rfl, by decide⟩)

/-! ## C4: the registered flag is set once, under the right conditions

`IdFields`/`Pres` capture what every post-registration handler leaves
untouched: the `registered` flag and the identity fields `nick`,
`password`, `hasUser`. -/

/-- `st2` agrees with `st` on the registration flag and identity fields. -/
def IdFields (st st2 : ClientState) : Prop :=
  st2.registered = st.registered ∧ st2.nick = st.nick ∧
  st2.password = st.password ∧ st2.hasUser = st.hasUser

/-- A handler run from `st` preserves the registration and identity fields. -/
def Pres (st : ClientState) (r : HandlerOut) : Prop :=
  ∀ st2 ls, r = some (st2, ls) → IdFields st st2

/-- A handler run from `st` preserves (at least) the registration flag. -/
def PresReg (st : ClientState) (r : HandlerOut) : Prop :=
  ∀ st2 ls, r = some (st2, ls) → st2.registered = st.registered

theorem idFields_refl (st : ClientState) : IdFields st st := ⟨rfl, rfl, rfl, rfl⟩

theorem idFields_trans {a b c : ClientState} (h1 : IdFields a b)
    (h2 : IdFields b c) : IdFields a c :=
  ⟨h2.1.trans h1.1, h2.2.1.trans h1.2.1, h2.2.2.1.trans h1.2.2.1,
   h2.2.2.2.trans h1.2.2.2⟩

theorem presReg_of_pres {st : ClientState} {r : HandlerOut} (h : Pres st r) :
    PresReg st r :=
  fun st2 ls heq => (h st2 ls heq).1

theorem pres_andThen {st : ClientState} {r : HandlerOut}
    {f : ClientState → HandlerOut} (hr : Pres st r) (hf : ∀ s, Pres s (f s)) :
    Pres st (andThen r f) := by
  intro st2 ls h
  unfold andThen at h
  split at h
  · exact absurd h (by simp)
  · rename_i st1 ls1
    split at h
    · exact absurd h (by simp)
    · rename_i heq st2' ls2 heq2
      simp only [Option.some.injEq, Prod.mk.injEq] at h
      obtain ⟨h1, -⟩ := h
      subst h1
      exact idFields_trans (hr st1 ls1 rfl) (hf st1 st2' ls2 heq2)

theorem pres_handleCap (cfg : Config) (bk : Backend) (st : ClientState)
    (msg : Message) : Pres st (handleCap cfg bk st msg) := by
  intro st2 ls h
  simp only [handleCap, Option.some.injEq, Prod.mk.injEq] at h
  obtain ⟨h1, -⟩ := h
  subst h1
  exact idFields_refl _

theorem pres_handleRegisteredNick (cfg : Config) (bk : Backend) (st : ClientState)
    (msg : Message) : Pres st (handleRegisteredNick cfg bk st msg) := by
  intro st2 ls h
  simp only [handleRegisteredNick, Option.some.injEq, Prod.mk.injEq] at h
  obtain ⟨h1, -⟩ := h
  subst h1
  exact idFields_refl _

theorem pres_handleRegisteredPassOrUser (cfg : Config) (bk : Backend)
    (st : ClientState) (msg : Message) :
    Pres st (handleRegisteredPassOrUser cfg bk st msg) := by
  intro st2 ls h
  simp only [handleRegisteredPassOrUser, Option.some.injEq, Prod.mk.injEq] at h
  obtain ⟨h1, -⟩ := h
  subst h1
  exact idFields_refl _

theorem pres_handleMotd (cfg : Config) (bk : Backend) (st : ClientState)
    (msg : Message) : Pres st (handleMotd cfg bk st msg) := by
  intro st2 ls h
  simp only [handleMotd, Option.some.injEq, Prod.mk.injEq] at h
  obtain ⟨h1, -⟩ := h
  subst h1
  exact idFields_refl _

theorem pres_handleQuit (cfg : Config) (bk : Backend) (st : ClientState)
    (msg : Message) : Pres st (handleQuit cfg bk st msg) := by
  intro st2 ls h
  simp only [handleQuit, disconnect, Option.some.injEq, Prod.mk.injEq] at h
  obtain ⟨h1, -⟩ := h
  subst h1
  simp [IdFields]

theorem pres_sendLUsers (cfg : Config) (bk : Backend) (st : ClientState) :
    Pres st (sendLUsers cfg bk st) := by
  intro st2 ls h
  simp only [sendLUsers] at h
  repeat' split at h
  all_goals
    simp only [Option.some.injEq, Prod.mk.injEq] at h
  all_goals
    obtain ⟨h1, -⟩ := h
  all_goals
    subst h1
  all_goals
    exact idFields_refl _

theorem pres_handleLUsers (cfg : Config) (bk : Backend) (st : ClientState)
    (msg : Message) : Pres st (handleLUsers cfg bk st msg) :=
  pres_sendLUsers cfg bk st

theorem pres_handleTopicImpl (cfg : Config) (bk : Backend) (st : ClientState)
    (args : List Str) : Pres st (handleTopicImpl cfg bk st args) := by
  intro st2 ls h
  simp only [handleTopicImpl] at h
  repeat' split at h
  all_goals
    simp only [Option.some.injEq, Prod.mk.injEq] at h
  all_goals
    obtain ⟨h1, -⟩ := h
  all_goals
    subst h1
  all_goals
    exact idFields_refl _

theorem pres_handleTopic (cfg : Config) (bk : Backend) (st : ClientState)
    (msg : Message) : Pres st (handleTopic cfg bk st msg) :=
  pres_handleTopicImpl cfg bk st msg.args

theorem pres_handleNamesImpl (cfg : Config) (bk : Backend) (st : ClientState)
    (args : List Str) : Pres st (handleNamesImpl cfg bk st args) := by
  intro st2 ls h
  simp only [handleNamesImpl] at h
  repeat' split at h
  all_goals
    first
    | (simp only [Option.some.injEq, Prod.mk.injEq] at h
       obtain ⟨h1, -⟩ := h
       subst h1
       simp [IdFields])
    | simp at h

theorem pres_handleNames (cfg : Config) (bk : Backend) (st : ClientState)
    (msg : Message) : Pres st (handleNames cfg bk st msg) :=
  pres_handleNamesImpl cfg bk st msg.args

theorem pres_handleModeImpl (cfg : Config) (bk : Backend) (st : ClientState)
    (args : List Str) : Pres st (handleModeImpl cfg bk st args) := by
  intro st2 ls h
  simp only [handleModeImpl] at h
  repeat' split at h
  all_goals
    first
    | (simp only [Option.some.injEq, Prod.mk.injEq] at h
       obtain ⟨h1, -⟩ := h
       subst h1
       simp [IdFields])
    | simp at h

theorem pres_handleMode (cfg : Config) (bk : Backend) (st : ClientState)
    (msg : Message) : Pres st (handleMode cfg bk st msg) :=
  pres_handleModeImpl cfg bk st msg.args

theorem pres_joinChannel (cfg : Config) (bk : Backend) (st : ClientState)
    (channel : Str) : Pres st (joinChannel cfg bk st channel) := by
  unfold joinChannel
  refine pres_andThen ?_ ?_
  · intro st2 ls h
    simp only [Option.some.injEq, Prod.mk.injEq] at h
    obtain ⟨h1, -⟩ := h
    subst h1
    exact idFields_refl _
  · intro s
    exact pres_andThen (pres_handleTopicImpl cfg bk s [channel])
      (fun s2 => pres_handleNamesImpl cfg bk s2 [channel])

theorem pres_sendWelcome (cfg : Config) (bk : Backend) (st : ClientState) :
    Pres st (sendWelcome cfg bk st) := by
  unfold sendWelcome
  refine pres_andThen ?_ (fun s1 => pres_andThen (pres_sendLUsers cfg bk s1)
    (fun s2 => pres_andThen (pres_handleMotd cfg bk s2 _)
      (fun s3 => pres_andThen ?_ (fun s4 => pres_joinChannel cfg bk s4 _))))
  · intro st2 ls h
    simp only [Option.some.injEq, Prod.mk.injEq] at h
    obtain ⟨h1, -⟩ := h
    subst h1
    exact idFields_refl _
  · intro st2 ls h
    simp only [Option.some.injEq, Prod.mk.injEq] at h
    obtain ⟨h1, -⟩ := h
    subst h1
    exact idFields_refl _

theorem pres_handlePing (cfg : Config) (bk : Backend) (st : ClientState)
    (msg : Message) : Pres st (handlePing cfg bk st msg) := by
  intro st2 ls h
  simp only [handlePing, Option.some.injEq, Prod.mk.injEq] at h
  obtain ⟨h1, -⟩ := h
  subst h1
  exact idFields_refl _

theorem pres_handleWho (cfg : Config) (bk : Backend) (st : ClientState)
    (msg : Message) : Pres st (handleWho cfg bk st msg) := by
  intro st2 ls h
  simp only [handleWho] at h
  repeat' split at h
  all_goals
    first
    | (simp only [Option.some.injEq, Prod.mk.injEq] at h
       obtain ⟨h1, -⟩ := h
       subst h1
       simp [IdFields])
    | simp at h

theorem pres_handlePrivmsg (cfg : Config) (bk : Backend) (st : ClientState)
    (msg : Message) : Pres st (handlePrivmsg cfg bk st msg) := by
  intro st2 ls h
  simp only [handlePrivmsg] at h
  repeat' split at h
  all_goals
    first
    | (simp only [Option.some.injEq, Prod.mk.injEq] at h
       obtain ⟨h1, -⟩ := h
       subst h1
       simp [IdFields])
    | simp at h

theorem pres_handleWhois (cfg : Config) (bk : Backend) (st : ClientState)
    (msg : Message) : Pres st (handleWhois cfg bk st msg) := by
  intro st2 ls h
  simp only [handleWhois] at h
  repeat' split at h
  all_goals
    first
    | (simp only [Option.some.injEq, Prod.mk.injEq] at h
       obtain ⟨h1, -⟩ := h
       subst h1
       simp [IdFields])
    | simp at h

theorem pres_handleList (cfg : Config) (bk : Backend) (st : ClientState)
    (msg : Message) : Pres st (handleList cfg bk st msg) := by
  intro st2 ls h
  simp only [handleList] at h
  repeat' split at h
  all_goals
    first
    | (simp only [Option.some.injEq, Prod.mk.injEq] at h
       obtain ⟨h1, -⟩ := h
       subst h1
       simp [IdFields])
    | simp at h

theorem pres_handlePart (cfg : Config) (bk : Backend) (st : ClientState)
    (msg : Message) : Pres st (handlePart cfg bk st msg) := by
  intro st2 ls h
  simp only [handlePart] at h
  repeat' split at h
  all_goals
    first
    | (simp only [Option.some.injEq, Prod.mk.injEq] at h
       obtain ⟨h1, -⟩ := h
       subst h1
       simp [IdFields])
    | simp at h

theorem pres_handleWhowas (cfg : Config) (bk : Backend) (st : ClientState)
    (msg : Message) : Pres st (handleWhowas cfg bk st msg) := by
  intro st2 ls h
  simp only [handleWhowas] at h
  repeat' split at h
  all_goals
    first
    | (simp only [Option.some.injEq, Prod.mk.injEq] at h
       obtain ⟨h1, -⟩ := h
       subst h1
       simp [IdFields])
    | simp at h

theorem pres_handleJoin (cfg : Config) (bk : Backend) (st : ClientState)
    (msg : Message) : Pres st (handleJoin cfg bk st msg) := by
  intro st2 ls h
  simp only [handleJoin] at h
  repeat' split at h
  all_goals
    first
    | (simp only [Option.some.injEq, Prod.mk.injEq] at h
       obtain ⟨h1, -⟩ := h
       subst h1
       simp [IdFields])
    | (have hpj := pres_joinChannel cfg bk _ _ st2 ls h
       exact idFields_trans ⟨rfl, rfl, rfl, rfl⟩ hpj)
    | simp at h

theorem pres_handleIncomingRegistered (cfg : Config) (bk : Backend)
    (st : ClientState) (msg : Message) :
    Pres st (handleIncomingRegistered cfg bk st msg) := by
  intro st2 ls h
  unfold handleIncomingRegistered at h
  by_cases hc1 : msg.cmd = "CAP".toList
  · rw [if_pos hc1] at h
    exact pres_handleCap cfg bk st msg st2 ls h
  rw [if_neg hc1] at h
  by_cases hc2 : msg.cmd = "JOIN".toList
  · rw [if_pos hc2] at h
    exact pres_handleJoin cfg bk st msg st2 ls h
  rw [if_neg hc2] at h
  by_cases hc3 : msg.cmd = "LIST".toList
  · rw [if_pos hc3] at h
    exact pres_handleList cfg bk st msg st2 ls h
  rw [if_neg hc3] at h
  by_cases hc4 : msg.cmd = "LUSERS".toList
  · rw [if_pos hc4] at h
    exact pres_handleLUsers cfg bk st msg st2 ls h
  rw [if_neg hc4] at h
  by_cases hc5 : msg.cmd = "MODE".toList
  · rw [if_pos hc5] at h
    exact pres_handleMode cfg bk st msg st2 ls h
  rw [if_neg hc5] at h
  by_cases hc6 : msg.cmd = "MOTD".toList
  · rw [if_pos hc6] at h
    exact pres_handleMotd cfg bk st msg st2 ls h
  rw [if_neg hc6] at h
  by_cases hc7 : msg.cmd = "NAMES".toList
  · rw [if_pos hc7] at h
    exact pres_handleNames cfg bk st msg st2 ls h
  rw [if_neg hc7] at h
  by_cases hc8 : msg.cmd = "NICK".toList
  · rw [if_pos hc8] at h
    exact pres_handleRegisteredNick cfg bk st msg st2 ls h
  rw [if_neg hc8] at h
  by_cases hc9 : msg.cmd = "PART".toList
  · rw [if_pos hc9] at h
    exact pres_handlePart cfg bk st msg st2 ls h
  rw [if_neg hc9] at h
  by_cases hc10 : msg.cmd = "PASS".toList
  · rw [if_pos hc10] at h
    exact pres_handleRegisteredPassOrUser cfg bk st msg st2 ls h
  rw [if_neg hc10] at h
  by_cases hc11 : msg.cmd = "PING".toList
  · rw [if_pos hc11] at h
    exact pres_handlePing cfg bk st msg st2 ls h
  rw [if_neg hc11] at h
  by_cases hc12 : msg.cmd = "PRIVMSG".toList
  · rw [if_pos hc12] at h
    exact pres_handlePrivmsg cfg bk st msg st2 ls h
  rw [if_neg hc12] at h
  by_cases hc13 : msg.cmd = "QUIT".toList
  · rw [if_pos hc13] at h
    exact pres_handleQuit cfg bk st msg st2 ls h
  rw [if_neg hc13] at h
  by_cases hc14 : msg.cmd = "TOPIC".toList
  · rw [if_pos hc14] at h
    exact pres_handleTopic cfg bk st msg st2 ls h
  rw [if_neg hc14] at h
  by_cases hc15 : msg.cmd = "USER".toList
  · rw [if_pos hc15] at h
    exact pres_handleRegisteredPassOrUser cfg bk st msg st2 ls h
  rw [if_neg hc15] at h
  by_cases hc16 : msg.cmd = "WHO".toList
  · rw [if_pos hc16] at h
    exact pres_handleWho cfg bk st msg st2 ls h
  rw [if_neg hc16] at h
  by_cases hc17 : msg.cmd = "WHOIS".toList
  · rw [if_pos hc17] at h
    exact pres_handleWhois cfg bk st msg st2 ls h
  rw [if_neg hc17] at h
  by_cases hc18 : msg.cmd = "WHOWAS".toList
  · rw [if_pos hc18] at h
    exact pres_handleWhowas cfg bk st msg st2 ls h
  rw [if_neg hc18] at h
  simp only [Option.some.injEq, Prod.mk.injEq] at h
  obtain ⟨hst, -⟩ := h
  subst hst
  exact idFields_refl _

theorem presReg_handleUnregisteredNick (cfg : Config) (bk : Backend)
    (st : ClientState) (msg : Message) :
    PresReg st (handleUnregisteredNick cfg bk st msg) := by
  intro st2 ls h
  simp only [handleUnregisteredNick] at h
  repeat' split at h
  all_goals
    first
    | (simp only [Option.some.injEq, Prod.mk.injEq] at h
       obtain ⟨h1, -⟩ := h
       subst h1
       rfl)
    | simp at h

theorem presReg_handleUnregisteredPass (cfg : Config) (bk : Backend)
    (st : ClientState) (msg : Message) :
    PresReg st (handleUnregisteredPass cfg bk st msg) := by
  intro st2 ls h
  simp only [handleUnregisteredPass] at h
  repeat' split at h
  all_goals
    first
    | (simp only [Option.some.injEq, Prod.mk.injEq] at h
       obtain ⟨h1, -⟩ := h
       subst h1
       rfl)
    | simp at h

theorem presReg_handleUnregisteredUser (cfg : Config) (bk : Backend)
    (st : ClientState) (msg : Message) :
    PresReg st (handleUnregisteredUser cfg bk st msg) := by
  intro st2 ls h
  simp only [handleUnregisteredUser, Option.some.injEq, Prod.mk.injEq] at h
  obtain ⟨h1, -⟩ := h
  subst h1
  rfl

theorem andThen_some {r : HandlerOut} {f : ClientState → HandlerOut}
    {out : ClientState × List OutLine} (h : andThen r f = some out) :
    ∃ st1 ls1 st2 ls2, r = some (st1, ls1) ∧ f st1 = some (st2, ls2) ∧
      out = (st2, ls1 ++ ls2) := by
  unfold andThen at h
  split at h
  · exact absurd h (by simp)
  · rename_i st1 ls1
    split at h
    · exact absurd h (by simp)
    · rename_i heq st2 ls2 heq2
      simp only [Option.some.injEq] at h
      exact ⟨st1, ls1, st2, ls2, rfl, heq2, h.symm⟩

/-- After any recognized pre-registration command, a session that comes out
of the registration attempt with the flag set satisfies the registration
conditions: nonempty nickname, user-info flag, and a successful backend
login for exactly that nickname and password. -/
theorem unregContinue_spec (cfg : Config) (bk : Backend) (st : ClientState)
    (res : HandlerOut) (out : ClientState × List OutLine)
    (hres : PresReg st res) (hreg : st.registered = false)
    (h : unregContinue cfg bk res = some out)
    (htrue : out.1.registered = true) :
    out.1.nick ≠ [] ∧ out.1.hasUser = true ∧
    ∃ sess, bk.login out.1.nick out.1.password = Except.ok sess := by
  unfold unregContinue at h
  obtain ⟨st1, ls1, st2', ls2, hA, hB, hC⟩ := andThen_some h
  have hst1 : st1.registered = false := (hres st1 ls1 hA).trans hreg
  have htrue2 : st2'.registered = true := by
    rw [hC] at htrue
    exact htrue
  have hmain : st2'.nick ≠ [] ∧ st2'.hasUser = true ∧
      ∃ sess, bk.login st2'.nick st2'.password = Except.ok sess := by
    by_cases hguard : st1.nick ≠ [] ∧ st1.hasUser = true
    · rw [if_pos hguard] at hB
      split at hB
      · rename_i e hL
        simp only [disconnect, Option.some.injEq, Prod.mk.injEq] at hB
        obtain ⟨h2, -⟩ := hB
        have h3 : st1.registered = true := by
          rw [← h2] at htrue2
          exact htrue2
        rw [hst1] at h3
        exact absurd h3 (by decide)
      · rename_i sess hL
        obtain ⟨sa, la, sb, lb, hA2, hB2, hC2⟩ := andThen_some hB
        simp only [Option.some.injEq, Prod.mk.injEq] at hA2
        obtain ⟨hA2a, -⟩ := hA2
        subst hA2a
        simp only [Prod.mk.injEq] at hC2
        obtain ⟨hC2a, -⟩ := hC2
        subst hC2a
        have hid := pres_sendWelcome cfg bk _ _ lb hB2
        refine ⟨?_, ?_, sess, ?_⟩
        · rw [hid.2.1]
          exact hguard.1
        · rw [hid.2.2.2]
          exact hguard.2
        · rw [hid.2.1, hid.2.2.1]
          exact hL
    · rw [if_neg hguard] at hB
      simp only [Option.some.injEq, Prod.mk.injEq] at hB
      obtain ⟨h2, -⟩ := hB
      have h3 : st1.registered = true := by
        rw [← h2] at htrue2
        exact htrue2
      rw [hst1] at h3
      exact absurd h3 (by decide)
  rw [hC]
  exact hmain

/-- C4: on every connection the `registered` flag is monotone and its only
transition to `true` happens in `handleIncomingUnregistered` under the
registration preconditions: (1) a step taken while registered leaves the
flag set; (2) a step that turns the flag on ends in a state with a nonempty
nickname, the user-info flag set, and a successful backend login for that
nickname and password; (3) over any sequence of inbound lines, a registered
session never loses the flag — together: the flag is set at most once per
connection and only with the preconditions satisfied. -/
theorem registration_monotone (cfg : Config) (bk : Backend) :
    (∀ st raw out, handleIncoming cfg bk st raw = some out →
      st.registered = true → out.1.registered = true) ∧
    (∀ st raw out, handleIncoming cfg bk st raw = some out →
      st.registered = false → out.1.registered = true →
      out.1.nick ≠ [] ∧ out.1.hasUser = true ∧
      ∃ sess, bk.login out.1.nick out.1.password = Except.ok sess) ∧
    (∀ st raws out, runLines cfg bk st raws = some out →
      st.registered = true → out.1.registered = true) := by
  have hstep : ∀ st raw out, handleIncoming cfg bk st raw = some out →
      st.registered = true → out.1.registered = true := by
    intro st raw out h hreg
    unfold handleIncoming at h
    rw [hreg] at h
    simp only [Bool.not_true, Bool.false_eq_true, if_false] at h
    obtain ⟨st2, ls⟩ := out
    exact ((pres_handleIncomingRegistered cfg bk st (NewMessage raw) st2 ls h).1).trans
      hreg
  refine ⟨hstep, ?_, ?_⟩
  · intro st raw out h hreg htrue
    unfold handleIncoming at h
    rw [hreg] at h
    simp only [Bool.not_false, if_true] at h
    unfold handleIncomingUnregistered at h
    by_cases h1 : (NewMessage raw).cmd = "CAP".toList
    · rw [if_pos h1] at h
      exact unregContinue_spec cfg bk st _ out
        (presReg_of_pres (pres_handleCap cfg bk st _)) hreg h htrue
    rw [if_neg h1] at h
    by_cases h2 : (NewMessage raw).cmd = "NICK".toList
    · rw [if_pos h2] at h
      exact unregContinue_spec cfg bk st _ out
        (presReg_handleUnregisteredNick cfg bk st _) hreg h htrue
    rw [if_neg h2] at h
    by_cases h3 : (NewMessage raw).cmd = "PASS".toList
    · rw [if_pos h3] at h
      exact unregContinue_spec cfg bk st _ out
        (presReg_handleUnregisteredPass cfg bk st _) hreg h htrue
    rw [if_neg h3] at h
    by_cases h4 : (NewMessage raw).cmd = "USER".toList
    · rw [if_pos h4] at h
      exact unregContinue_spec cfg bk st _ out
        (presReg_handleUnregisteredUser cfg bk st _) hreg h htrue
    rw [if_neg h4] at h
    exfalso
    simp only [Option.some.injEq] at h
    rw [← h] at htrue
    have h5 : st.registered = true := htrue
    rw [hreg] at h5
    exact absurd h5 (by decide)
  · intro st raws
    induction raws generalizing st with
    | nil =>
      intro out h hreg
      simp only [runLines, Option.some.injEq] at h
      rw [← h]
      exact hreg
    | cons raw rest ih =>
      intro out h hreg
      simp only [runLines] at h
      obtain ⟨st1, ls1, st2', ls2, hA, hB, hC⟩ := andThen_some h
      have h1 : st1.registered = true := hstep st raw (st1, ls1) hA hreg
      have h2 := ih st1 (st2', ls2) hB h1
      rw [hC]
      exact h2

/-- Witness for C4: a PING handled in the registered state leaves the flag
set. -/
theorem registration_monotone_witness :
    handleIncoming cfg0 bkOk st0 "PING x".toList =
      some (st0, [':' :: cfg0.advertisedName ++ " PONG ".toList ++
        cfg0.advertisedName ++ " :".toList ++ "x".toList]) ∧
    st0.registered = true :=
  ⟨by decide, (registration_monotone cfg0 bkOk).1 st0 "PING x".toList
    (st0, [':' :: cfg0.advertisedName ++ " PONG ".toList ++
      cfg0.advertisedName ++ " :".toList ++ "x".toList]) (by decide) (by decide)⟩

end PyxIrc

